import Mathlib

/-!
The pgBackRest service of the postgres-operator API server.

A shallow embedding of `apiserver/backrestservice/backrestimpl.go`
(`CreateBackup`, `getBackupParams`, `getDeployName`, `getPrimaryPodName`,
`isPrimary`, `isReady`, `ShowBackrest`, `getInfo`, `Restore`,
`getRestoreParams`) together with theorems about its behaviour.

Conventions of the embedding.

* A Go `error` is an `Option String`: `none` is `nil`, `some m` is an error
  whose `Error()` text is `m`.
* A Go `map[string]string` is a function `String → String`; a key that is
  absent reads as the empty string, as in Go.
* The packages `kubeapi`, `util`, `crv1`, `msgs` and `time` are not part of
  the embedded file.  Their constants are taken as a parameter (`Consts`),
  their calls as a parameter (`KubeAPI σ`) acting on an arbitrary state `σ`
  by explicit state passing.  The ambient `apiserver.RESTClient`,
  `apiserver.Clientset`, `apiserver.RESTConfig` and `apiserver.Namespace`
  are part of that parameter.
* Logging is dropped.
-/

/-! ## Data model -/

/-- A Go `error`: `none` is `nil`, `some m` has `Error()` text `m`. -/
abbrev error := Option String

/-- A Go `map[string]string`; an absent key reads as `""`. -/
abbrev StrMap := String → String

/-- The result of `make(map[string]string)`. -/
def StrMap.make : StrMap := fun _ => ""

/-- The assignment `m[k] = v`. -/
def StrMap.set (m : StrMap) (k v : String) : StrMap :=
  fun x => if x = k then v else m x

/-- Modelled from the spec: the constants of the packages `util` and `crv1`
that the file uses (label keys and task type tags); the packages are not
among the embedded sources, so the values are left open. -/
structure Consts where
  LABEL_BACKREST : String
  LABEL_PG_CLUSTER : String
  LABEL_PGPOOL : String
  LABEL_PRIMARY : String
  LABEL_POD_NAME : String
  LABEL_CONTAINER_NAME : String
  LABEL_BACKREST_COMMAND : String
  LABEL_BACKREST_OPTS : String
  LABEL_BACKREST_RESTORE_FROM_CLUSTER : String
  LABEL_BACKREST_RESTORE_TO_PVC : String
  LABEL_BACKREST_RESTORE_OPTS : String
  LABEL_PGBACKREST_STANZA : String
  LABEL_PGBACKREST_DB_PATH : String
  LABEL_PGBACKREST_REPO_PATH : String
  PgtaskBackrest : String
  PgtaskBackrestBackup : String
  PgtaskBackrestRestore : String

/-- Modelled from the spec: the status codes `msgs.Ok` and `msgs.Error`. -/
inductive msgs.Code where
  | Ok
  | Error
deriving DecidableEq, Repr

/-- The type `msgs.Status`. -/
structure msgs.Status where
  Code : msgs.Code
  Msg : String
deriving DecidableEq, Repr

/-- The fields of `msgs.CreateBackrestBackupRequest` that the file reads. -/
structure msgs.CreateBackrestBackupRequest where
  Args : List String
  Selector : String
  BackupOpts : String
deriving DecidableEq, Repr

/-- The type `msgs.CreateBackrestBackupResponse`. -/
structure msgs.CreateBackrestBackupResponse where
  Results : List String
  Status : msgs.Status
deriving DecidableEq, Repr

/-- The type `msgs.ShowBackrestDetail`. -/
structure msgs.ShowBackrestDetail where
  Name : String
  Info : String
deriving DecidableEq, Repr

/-- The type `msgs.ShowBackrestResponse`. -/
structure msgs.ShowBackrestResponse where
  Items : List msgs.ShowBackrestDetail
  Status : msgs.Status
deriving DecidableEq, Repr

/-- The fields of `msgs.RestoreRequest` that the file reads. -/
structure msgs.RestoreRequest where
  FromCluster : String
  ToPVC : String
  RestoreOpts : String
deriving DecidableEq, Repr

/-- The type `msgs.RestoreResponse`. -/
structure msgs.RestoreResponse where
  Results : List String
  Status : msgs.Status
deriving DecidableEq, Repr

/-- The fields of `crv1.PgclusterSpec` that the file reads. -/
structure crv1.PgclusterSpec where
  Name : String
  UserLabels : StrMap

/-- The fields of `crv1.Pgcluster` that the file reads (`Name` is the
object name of its `ObjectMeta`). -/
structure crv1.Pgcluster where
  Name : String
  Spec : crv1.PgclusterSpec

/-- The type `crv1.PgclusterList`. -/
structure crv1.PgclusterList where
  Items : List crv1.Pgcluster

/-- The type `crv1.PgtaskSpec`. -/
structure crv1.PgtaskSpec where
  Name : String
  TaskType : String
  Parameters : StrMap

/-- The type `crv1.Pgtask` (`Name` is the object name of its `ObjectMeta`). -/
structure crv1.Pgtask where
  Name : String
  Spec : crv1.PgtaskSpec

/-- One entry of `pod.Status.ContainerStatuses`. -/
structure v1.ContainerStatus where
  Ready : Bool
deriving DecidableEq, Repr

/-- The fields of `v1.Pod` that the file reads (`Name` and `Labels` are
those of its `ObjectMeta`, `ContainerStatuses` that of its `Status`). -/
structure v1.Pod where
  Name : String
  Labels : StrMap
  ContainerStatuses : List v1.ContainerStatus

/-- The type `v1.PodList`. -/
structure v1.PodList where
  Items : List v1.Pod

/-- The field of a deployment that the file reads. -/
structure v1beta1.Deployment where
  Name : String
deriving DecidableEq, Repr

/-- The list type that `kubeapi.GetDeployments` returns. -/
structure v1beta1.DeploymentList where
  Items : List v1beta1.Deployment
deriving DecidableEq, Repr

/-- A job, of which the file reads nothing but its presence in a list. -/
structure v1batch.Job where
  Name : String
deriving DecidableEq, Repr

/-- The list type that `kubeapi.GetJobs` returns. -/
structure v1batch.JobList where
  Items : List v1batch.Job
deriving DecidableEq, Repr

/-- Modelled from the spec: the calls into the workload manager (package
`kubeapi`) and `time.Sleep`, none of which is among the embedded sources.
Each call maps the state `σ` of the outside world to its Go results and the
next state; nothing is assumed about what a call returns or does.  An
out-parameter (`&cluster`, `&clusterList`) is returned as a result; the
`Pgtask` that `Getpgtask` fills in is never read and is left out. -/
structure KubeAPI (σ : Type) where
  GetpgclustersBySelector : String → σ → (crv1.PgclusterList × error) × σ
  Getpgcluster : String → σ → (crv1.Pgcluster × Bool × error) × σ
  Getpgtask : String → σ → (Bool × error) × σ
  Deletepgtask : String → σ → error × σ
  Createpgtask : crv1.Pgtask → σ → error × σ
  DeleteJobs : String → σ → error × σ
  GetJobs : String → σ → (v1batch.JobList × error) × σ
  GetPods : String → σ → (v1.PodList × error) × σ
  GetDeployments : String → σ → (v1beta1.DeploymentList × error) × σ
  ExecToPodThroughAPI : List String → String → String → σ → (String × String × error) × σ
  Sleep : Nat → σ → σ

/-! ## The embedded functions -/

/-- The constant `backrestCommand`. -/
def backrestCommand : String := "pgbackrest"

/-- The constant `backrestInfoCommand`. -/
def backrestInfoCommand : String := "info"

/-- The constant `containername`. -/
def containername : String := "database"

/-- The function `getBackupParams`. -/
def getBackupParams (u : Consts)
    (deployName clusterName taskName action podName containerName backupOpts : String) :
    crv1.Pgtask :=
  let _ := deployName
  let Parameters := StrMap.make
  let Parameters := Parameters.set u.LABEL_PG_CLUSTER clusterName
  let Parameters := Parameters.set u.LABEL_POD_NAME podName
  let Parameters := Parameters.set u.LABEL_CONTAINER_NAME containerName
  let Parameters := Parameters.set u.LABEL_BACKREST_COMMAND action
  let Parameters := Parameters.set u.LABEL_BACKREST_OPTS backupOpts
  { Name := taskName
    Spec := { Name := taskName, TaskType := u.PgtaskBackrest, Parameters := Parameters } }

/-- The function `getDeployName`. -/
def getDeployName {σ : Type} (k : KubeAPI σ) (u : Consts) (cluster : crv1.Pgcluster) (s : σ) :
    (String × error) × σ :=
  let depName := ""
  let selector := u.LABEL_PGPOOL ++ "!=true," ++ u.LABEL_PG_CLUSTER ++ "=" ++ cluster.Spec.Name
    ++ "," ++ u.LABEL_PRIMARY ++ "=true"
  match k.GetDeployments selector s with
  | ((deps, err), s) =>
    match err with
    | some e => ((depName, some e), s)
    | none =>
      if deps.Items.length ≠ 1 then
        ((depName, some ("error:  deployment count is wrong for backrest backup "
          ++ cluster.Spec.Name)), s)
      else
        match deps.Items with
        | d :: _ => ((d.Name, err), s)
        | [] => ((depName, some "unknown error in backrest backup"), s)

/-- The function `isPrimary`. -/
def isPrimary (u : Consts) (pod : v1.Pod) : Bool :=
  if pod.Labels u.LABEL_PRIMARY = "true" then true else false

/-- The counting loop of `isReady`: the pair `(readyCount, containerCount)`
after the statuses have been visited. -/
def isReady.count : List v1.ContainerStatus → Nat × Nat → Nat × Nat
  | [], acc => acc
  | stat :: rest, (readyCount, containerCount) =>
    let containerCount := containerCount + 1
    let readyCount := if stat.Ready then readyCount + 1 else readyCount
    isReady.count rest (readyCount, containerCount)

/-- The function `isReady`. -/
def isReady (pod : v1.Pod) : Bool :=
  match isReady.count pod.ContainerStatuses (0, 0) with
  | (readyCount, containerCount) =>
    if readyCount ≠ containerCount then false else true

/-- The loop of `getPrimaryPodName` over `pods.Items`: the name of the first
pod that passes both tests, if there is one. -/
def getPrimaryPodName.loop (u : Consts) : List v1.Pod → Option String
  | [] => none
  | p :: rest =>
    if isPrimary u p && isReady p then some p.Name else getPrimaryPodName.loop u rest

/-- The function `getPrimaryPodName`. -/
def getPrimaryPodName {σ : Type} (k : KubeAPI σ) (u : Consts) (cluster : crv1.Pgcluster)
    (s : σ) : (String × error) × σ :=
  let podname := ""
  let selector := u.LABEL_PGPOOL ++ "!=true," ++ u.LABEL_PG_CLUSTER ++ "=" ++ cluster.Spec.Name
    ++ "," ++ u.LABEL_PRIMARY ++ "=true"
  match k.GetPods selector s with
  | ((pods, err), s) =>
    match err with
    | some e => ((podname, some e), s)
    | none =>
      match getPrimaryPodName.loop u pods.Items with
      | some name => ((name, err), s)
      | none => ((podname, some "primary pod is not in Ready state"), s)

/-- How one pass through the body of the `for` loop in `CreateBackup` ends:
`next` falls through to the next target; `stop` stands for both `return resp`
and `break`, after each of which the function returns `resp` as it is. -/
inductive CreateBackup.Flow where
  | next
  | stop
deriving DecidableEq, Repr

/-- The loop `for i := 0; i < 3; i++` in the reclaim branch of `CreateBackup`,
with `n` the number of iterations left: list the jobs again and sleep two
seconds if any is listed; the listing error is only logged. -/
def CreateBackup.waitJobs {σ : Type} (k : KubeAPI σ) (selector : String) : Nat → σ → σ
  | 0, s => s
  | n + 1, s =>
    match k.GetJobs selector s with
    | ((jobList, _err), s) =>
      let s := if jobList.Items.length > 0 then k.Sleep 2 s else s
      CreateBackup.waitJobs k selector n s

/-- The tail of the loop body of `CreateBackup`, from `//get pod name from
cluster` on: resolve pod and deployment, create the task. -/
def CreateBackup.issue {σ : Type} (k : KubeAPI σ) (u : Consts)
    (request : msgs.CreateBackrestBackupRequest) (clusterName taskName : String)
    (cluster : crv1.Pgcluster) (resp : msgs.CreateBackrestBackupResponse) (s : σ) :
    (CreateBackup.Flow × msgs.CreateBackrestBackupResponse) × σ :=
  match getPrimaryPodName k u cluster s with
  | ((podname, err), s) =>
    match err with
    | some e => ((.stop, { resp with Status := { Code := .Error, Msg := e } }), s)
    | none =>
      match getDeployName k u cluster s with
      | ((deployName, err), s) =>
        match err with
        | some e => ((.stop, { resp with Status := { Code := .Error, Msg := e } }), s)
        | none =>
          match k.Createpgtask (getBackupParams u deployName clusterName taskName
              u.PgtaskBackrestBackup podname "database" request.BackupOpts) s with
          | (err, s) =>
            match err with
            | some e => ((.stop, { resp with Status := { Code := .Error, Msg := e } }), s)
            | none =>
              ((.next, { resp with Results := resp.Results ++ ["created Pgtask " ++ taskName] }), s)

/-- The body of the loop `for _, clusterName := range request.Args` of
`CreateBackup`. -/
def CreateBackup.body {σ : Type} (k : KubeAPI σ) (u : Consts)
    (request : msgs.CreateBackrestBackupRequest) (clusterName : String)
    (resp : msgs.CreateBackrestBackupResponse) (s : σ) :
    (CreateBackup.Flow × msgs.CreateBackrestBackupResponse) × σ :=
  let taskName := clusterName ++ "-backrest-backup"
  match k.Getpgcluster clusterName s with
  | ((cluster, found, err), s) =>
    if !found then
      ((.stop, { resp with
        Status := { Code := .Error, Msg := clusterName ++ " was not found, verify cluster name" } }),
        s)
    else
      match err with
      | some e => ((.stop, { resp with Status := { Code := .Error, Msg := e } }), s)
      | none =>
        if cluster.Spec.UserLabels u.LABEL_BACKREST ≠ "true" then
          ((.stop, { resp with
            Status := { Code := .Error, Msg := clusterName ++ " does not have pgbackrest enabled" } }),
            s)
        else
          match k.Getpgtask taskName s with
          | ((found, err), s) =>
            if !found then
              CreateBackup.issue k u request clusterName taskName cluster resp s
            else
              match err with
              | some _ =>
                ((.stop, { resp with
                  Results := resp.Results ++ ["error getting pgtask for " ++ taskName] }), s)
              | none =>
                match k.Deletepgtask taskName s with
                | (err, s) =>
                  match err with
                  | some e => ((.stop, { resp with Status := { Code := .Error, Msg := e } }), s)
                  | none =>
                    let selector := u.LABEL_PG_CLUSTER ++ "=" ++ clusterName ++ ","
                      ++ u.LABEL_BACKREST ++ "=true"
                    match k.DeleteJobs selector s with
                    | (_err, s) =>
                      let s := CreateBackup.waitJobs k selector 3 s
                      CreateBackup.issue k u request clusterName taskName cluster resp s

/-- The loop `for _, clusterName := range request.Args` of `CreateBackup`
followed by the final `return resp`. -/
def CreateBackup.loop {σ : Type} (k : KubeAPI σ) (u : Consts)
    (request : msgs.CreateBackrestBackupRequest) :
    List String → msgs.CreateBackrestBackupResponse → σ → msgs.CreateBackrestBackupResponse × σ
  | [], resp, s => (resp, s)
  | clusterName :: rest, resp, s =>
    match CreateBackup.body k u request clusterName resp s with
    | ((.stop, resp), s) => (resp, s)
    | ((.next, resp), s) => CreateBackup.loop k u request rest resp s

/-- The function `CreateBackup`. -/
def CreateBackup {σ : Type} (k : KubeAPI σ) (u : Consts)
    (request : msgs.CreateBackrestBackupRequest) (s : σ) :
    msgs.CreateBackrestBackupResponse × σ :=
  let resp : msgs.CreateBackrestBackupResponse :=
    { Results := [], Status := { Code := .Ok, Msg := "" } }
  if request.Selector ≠ "" then
    match k.GetpgclustersBySelector request.Selector s with
    | ((clusterList, err), s) =>
      match err with
      | some e => ({ resp with Status := { Code := .Error, Msg := e } }, s)
      | none =>
        if clusterList.Items.length = 0 then
          ({ resp with Results := resp.Results ++ ["no clusters found with that selector"] }, s)
        else
          let newargs := clusterList.Items.map (fun cluster => cluster.Spec.Name)
          CreateBackup.loop k u request newargs resp s
  else
    CreateBackup.loop k u request request.Args resp s

/-- The function `getInfo`. -/
def getInfo {σ : Type} (k : KubeAPI σ) (clusterName podname : String) (s : σ) :
    (String × error) × σ :=
  let _ := clusterName
  let cmd := [backrestCommand, backrestInfoCommand]
  match k.ExecToPodThroughAPI cmd containername podname s with
  | ((output, _stderr, err), s) =>
    match err with
    | some e => (("", some e), s)
    | none => ((output, err), s)

/-- The loop `for _, c := range clusterList.Items` of `ShowBackrest` followed
by the final `return response`. -/
def ShowBackrest.loop {σ : Type} (k : KubeAPI σ) (u : Consts) :
    List crv1.Pgcluster → msgs.ShowBackrestResponse → σ → msgs.ShowBackrestResponse × σ
  | [], response, s => (response, s)
  | c :: rest, response, s =>
    match getPrimaryPodName k u c s with
    | ((podname, err), s) =>
      match err with
      | some e => ({ response with Status := { Code := .Error, Msg := e } }, s)
      | none =>
        match getInfo k c.Name podname s with
        | ((info, err), s) =>
          let detail : msgs.ShowBackrestDetail :=
            match err with
            | some e => { Name := c.Name, Info := e }
            | none => { Name := c.Name, Info := info }
          ShowBackrest.loop k u rest { response with Items := response.Items ++ [detail] } s

/-- The function `ShowBackrest`. -/
def ShowBackrest {σ : Type} (k : KubeAPI σ) (u : Consts) (name selector : String) (s : σ) :
    msgs.ShowBackrestResponse × σ :=
  let response : msgs.ShowBackrestResponse :=
    { Items := [], Status := { Code := .Ok, Msg := "" } }
  let selector :=
    if selector = "" && name = "all" then selector
    else if selector = "" then "name=" ++ name else selector
  match k.GetpgclustersBySelector selector s with
  | ((clusterList, err), s) =>
    match err with
    | some e => ({ response with Status := { Code := .Error, Msg := e } }, s)
    | none => ShowBackrest.loop k u clusterList.Items response s

/-- The function `getRestoreParams`. -/
def getRestoreParams (u : Consts) (request : msgs.RestoreRequest) : crv1.Pgtask :=
  let Name := "backrest-restore-" ++ request.FromCluster ++ "-to-" ++ request.ToPVC
  let Parameters := StrMap.make
  let Parameters := Parameters.set u.LABEL_BACKREST_RESTORE_FROM_CLUSTER request.FromCluster
  let Parameters := Parameters.set u.LABEL_BACKREST_RESTORE_TO_PVC request.ToPVC
  let Parameters := Parameters.set u.LABEL_BACKREST_RESTORE_OPTS request.RestoreOpts
  let Parameters := Parameters.set u.LABEL_PGBACKREST_STANZA "db"
  let Parameters := Parameters.set u.LABEL_PGBACKREST_DB_PATH ("/pgdata/" ++ request.ToPVC)
  let Parameters := Parameters.set u.LABEL_PGBACKREST_REPO_PATH
    ("/backrestrepo/" ++ request.FromCluster ++ "-backups")
  { Name := Name
    Spec := { Name := Name, TaskType := u.PgtaskBackrestRestore, Parameters := Parameters } }

/-- The function `Restore`. -/
def Restore {σ : Type} (k : KubeAPI σ) (u : Consts) (request : msgs.RestoreRequest) (s : σ) :
    msgs.RestoreResponse × σ :=
  let resp : msgs.RestoreResponse := { Results := [], Status := { Code := .Ok, Msg := "" } }
  match k.Getpgcluster request.FromCluster s with
  | ((cluster, found, err), s) =>
    if !found then
      ({ resp with
        Status := { Code := .Error,
                    Msg := request.FromCluster ++ " was not found, verify cluster name" } }, s)
    else
      match err with
      | some e => ({ resp with Status := { Code := .Error, Msg := e } }, s)
      | none =>
        if cluster.Spec.UserLabels u.LABEL_BACKREST ≠ "true" then
          ({ resp with
            Status := { Code := .Error,
                        Msg := "can't restore, cluster restoring from does not have backrest enabled" } },
            s)
        else
          let pgtask := getRestoreParams u request
          match k.Getpgtask pgtask.Name s with
          | ((found, _err), s) =>
            let create := fun (s : σ) =>
              match k.Createpgtask pgtask s with
              | (err, s) =>
                match err with
                | some e => ({ resp with Status := { Code := .Error, Msg := e } }, s)
                | none =>
                  ({ resp with Results := resp.Results ++ ["restore performed on "
                    ++ request.FromCluster ++ " to " ++ request.ToPVC ++ " opts="
                    ++ request.RestoreOpts] }, s)
            if found then
              match k.Deletepgtask pgtask.Name s with
              | (err, s) =>
                match err with
                | some e => ({ resp with Status := { Code := .Error, Msg := e } }, s)
                | none => create s
            else
              create s

/-! ## Observing the calls -/

/-- A call into the workload manager, or `time.Sleep`, with its arguments. -/
inductive Call where
  | GetpgclustersBySelector (selector : String)
  | Getpgcluster (name : String)
  | Getpgtask (name : String)
  | Deletepgtask (name : String)
  | Createpgtask (task : crv1.Pgtask)
  | DeleteJobs (selector : String)
  | GetJobs (selector : String)
  | GetPods (selector : String)
  | GetDeployments (selector : String)
  | ExecToPodThroughAPI (cmd : List String) (container pod : String)
  | Sleep (seconds : Nat)

/-- The API `k` with a log: every call does what it does in `k` and appends
itself to the list of calls made so far. -/
def traced {σ : Type} (k : KubeAPI σ) : KubeAPI (σ × List Call) where
  GetpgclustersBySelector selector st :=
    ((k.GetpgclustersBySelector selector st.1).1,
      ((k.GetpgclustersBySelector selector st.1).2, st.2 ++ [.GetpgclustersBySelector selector]))
  Getpgcluster name st :=
    ((k.Getpgcluster name st.1).1, ((k.Getpgcluster name st.1).2, st.2 ++ [.Getpgcluster name]))
  Getpgtask name st :=
    ((k.Getpgtask name st.1).1, ((k.Getpgtask name st.1).2, st.2 ++ [.Getpgtask name]))
  Deletepgtask name st :=
    ((k.Deletepgtask name st.1).1, ((k.Deletepgtask name st.1).2, st.2 ++ [.Deletepgtask name]))
  Createpgtask task st :=
    ((k.Createpgtask task st.1).1, ((k.Createpgtask task st.1).2, st.2 ++ [.Createpgtask task]))
  DeleteJobs selector st :=
    ((k.DeleteJobs selector st.1).1, ((k.DeleteJobs selector st.1).2, st.2 ++ [.DeleteJobs selector]))
  GetJobs selector st :=
    ((k.GetJobs selector st.1).1, ((k.GetJobs selector st.1).2, st.2 ++ [.GetJobs selector]))
  GetPods selector st :=
    ((k.GetPods selector st.1).1, ((k.GetPods selector st.1).2, st.2 ++ [.GetPods selector]))
  GetDeployments selector st :=
    ((k.GetDeployments selector st.1).1,
      ((k.GetDeployments selector st.1).2, st.2 ++ [.GetDeployments selector]))
  ExecToPodThroughAPI cmd container pod st :=
    ((k.ExecToPodThroughAPI cmd container pod st.1).1,
      ((k.ExecToPodThroughAPI cmd container pod st.1).2,
        st.2 ++ [.ExecToPodThroughAPI cmd container pod]))
  Sleep seconds st := (k.Sleep seconds st.1, st.2 ++ [.Sleep seconds])

/-! ## Vocabulary of the statements -/

/-- The label selector that `getPrimaryPodName` and `getDeployName` build for
a cluster whose `Spec.Name` is `name`. -/
def topologySelector (u : Consts) (name : String) : String :=
  u.LABEL_PGPOOL ++ "!=true," ++ u.LABEL_PG_CLUSTER ++ "=" ++ name ++ "," ++ u.LABEL_PRIMARY
    ++ "=true"

/-- The label selector that the reclaim branch of `CreateBackup` builds for
the jobs of the cluster named `clusterName`. -/
def jobSelector (u : Consts) (clusterName : String) : String :=
  u.LABEL_PG_CLUSTER ++ "=" ++ clusterName ++ "," ++ u.LABEL_BACKREST ++ "=true"

/-- The descriptor that `CreateBackup` hands to `Createpgtask` for the cluster
named `clusterName`, once the pod name `podname` and the deployment name
`deployName` are resolved. -/
def backupTask (u : Consts) (clusterName backupOpts podname deployName : String) : crv1.Pgtask :=
  getBackupParams u deployName clusterName (clusterName ++ "-backrest-backup")
    u.PgtaskBackrestBackup podname "database" backupOpts

/-- The spec's test on a pod candidate, in its words: the role label is
`primary=true` and readiness is full, the ready container count equals the
total container count. -/
def specReadyPrimary (u : Consts) (p : v1.Pod) : Bool :=
  decide (p.Labels u.LABEL_PRIMARY = "true") &&
    decide (p.ContainerStatuses.countP (fun stat => stat.Ready) = p.ContainerStatuses.length)

/-! ## A model of the workload manager -/

/-- Modelled from the spec: the state of the workload manager behind the
capability interfaces of the spec (section 6), which the sources do not
contain.

* `clusters` answers `GetCluster(name)`, `clusterQuery` answers
  `ListClustersBySelector(query)`; `pods` and `deployments` answer
  `ListPods(selector)` and `ListDeployments(selector)`: "given a label
  query, return matching entities", possibly with an error.
* `pgtasks` holds the live task descriptors.  `GetTask` finds a descriptor by
  name, `DeleteTask` removes the descriptors of that name, `CreateTask` adds
  one.  The store itself does nothing to keep names unique.
* Job deletion is eventually consistent, so what a `DeleteJobs` or a
  `ListJobs` call reports is not tied to any job state: the outcomes of the
  calls to come are listed in `deleteJobsOutcomes` and `getJobsOutcomes`,
  one per call, and a call after the end of its list succeeds with no jobs.
* `exec` answers `ExecInPod` with `(stdout, stderr, error)`. -/
structure ManagerState where
  clusters : String → Option crv1.Pgcluster
  clusterQuery : String → crv1.PgclusterList × error
  pgtasks : List crv1.Pgtask
  pods : String → v1.PodList × error
  deployments : String → v1beta1.DeploymentList × error
  deleteJobsOutcomes : List error
  getJobsOutcomes : List (v1batch.JobList × error)
  exec : List String → String → String → String × String × error

/-- Modelled from the spec: the calls of package `kubeapi` and `time.Sleep`
on the state of the modelled workload manager. -/
def managerAPI : KubeAPI ManagerState where
  GetpgclustersBySelector selector w := (w.clusterQuery selector, w)
  Getpgcluster name w :=
    match w.clusters name with
    | some cluster => ((cluster, true, none), w)
    | none => (({ Name := "", Spec := { Name := "", UserLabels := StrMap.make } }, false,
        some ("pgclusters " ++ name ++ " not found")), w)
  Getpgtask name w :=
    if w.pgtasks.any (fun t => t.Name == name) then ((true, none), w)
    else ((false, some ("pgtasks " ++ name ++ " not found")), w)
  Deletepgtask name w :=
    if w.pgtasks.any (fun t => t.Name == name) then
      (none, { w with pgtasks := w.pgtasks.filter (fun t => t.Name != name) })
    else (some ("pgtasks " ++ name ++ " not found"), w)
  Createpgtask task w := (none, { w with pgtasks := w.pgtasks ++ [task] })
  DeleteJobs _selector w :=
    match w.deleteJobsOutcomes with
    | [] => (none, w)
    | err :: rest => (err, { w with deleteJobsOutcomes := rest })
  GetJobs _selector w :=
    match w.getJobsOutcomes with
    | [] => (({ Items := [] }, none), w)
    | outcome :: rest => (outcome, { w with getJobsOutcomes := rest })
  GetPods selector w := (w.pods selector, w)
  GetDeployments selector w := (w.deployments selector, w)
  ExecToPodThroughAPI cmd container pod w := (w.exec cmd container pod, w)
  Sleep _seconds w := w

/-! ## A concrete scene -/

/-- Label keys and type tags for the concrete scenes. -/
def demoConsts : Consts where
  LABEL_BACKREST := "pgo-backrest"
  LABEL_PG_CLUSTER := "pg-cluster"
  LABEL_PGPOOL := "crunchy-pgpool"
  LABEL_PRIMARY := "primary"
  LABEL_POD_NAME := "podname"
  LABEL_CONTAINER_NAME := "containername"
  LABEL_BACKREST_COMMAND := "backrest-command"
  LABEL_BACKREST_OPTS := "backrest-opts"
  LABEL_BACKREST_RESTORE_FROM_CLUSTER := "backrest-restore-from-cluster"
  LABEL_BACKREST_RESTORE_TO_PVC := "backrest-restore-to-pvc"
  LABEL_BACKREST_RESTORE_OPTS := "backrest-restore-opts"
  LABEL_PGBACKREST_STANZA := "pgbackrest-stanza"
  LABEL_PGBACKREST_DB_PATH := "pgbackrest-db-path"
  LABEL_PGBACKREST_REPO_PATH := "pgbackrest-repo-path"
  PgtaskBackrest := "backrest"
  PgtaskBackrestBackup := "backup"
  PgtaskBackrestRestore := "backrestrestore"

/-- The cluster `db1` with the backup-enabled user label set to `enabled`. -/
def demoCluster (enabled : String) : crv1.Pgcluster where
  Name := "db1"
  Spec := { Name := "db1", UserLabels := StrMap.make.set demoConsts.LABEL_BACKREST enabled }

/-- The pod `db1-0`, labelled primary, with one container that is ready or
not. -/
def demoPod (ready : Bool) : v1.Pod where
  Name := "db1-0"
  Labels := StrMap.make.set demoConsts.LABEL_PRIMARY "true"
  ContainerStatuses := [{ Ready := ready }]

/-- A manager that knows the cluster `db1` alone, lists `pods` and
`deployments` for every selector, holds the task descriptors `pgtasks` and
has no job outcomes or command output prepared. -/
def demoManager (enabled : String) (pods : List v1.Pod) (deployments : List v1beta1.Deployment)
    (pgtasks : List crv1.Pgtask) : ManagerState where
  clusters name := if name = "db1" then some (demoCluster enabled) else none
  clusterQuery _ := ({ Items := [demoCluster enabled] }, none)
  pgtasks := pgtasks
  pods _ := ({ Items := pods }, none)
  deployments _ := ({ Items := deployments }, none)
  deleteJobsOutcomes := []
  getJobsOutcomes := []
  exec _ _ _ := ("", "", none)

/-- The modelled manager with a task lookup that reports the descriptor found
and an error at once. -/
def lookupErrorAPI : KubeAPI ManagerState :=
  { managerAPI with
    Getpgtask := fun _name w => ((true, some "the server was unable to return a response"), w) }

/-- The text `msg` contains the text `part`: the characters of `part` occur
in `msg` as one contiguous run. -/
def containsText (msg part : String) : Prop := part.data <:+: msg.data

instance containsText.decidable (msg part : String) : Decidable (containsText msg part) :=
  inferInstanceAs (Decidable (part.data <:+: msg.data))

/-- The text `msg` contains the text `part` when upper and lower case are not
told apart. -/
def containsTextAnyCase (msg part : String) : Prop :=
  part.data.map Char.toLower <:+: msg.data.map Char.toLower

instance containsTextAnyCase.decidable (msg part : String) :
    Decidable (containsTextAnyCase msg part) :=
  inferInstanceAs (Decidable (part.data.map Char.toLower <:+: msg.data.map Char.toLower))

/-- The spec's selector for `ShowBackupStatus`, in its words: selector `""`
with name `"all"` matches every cluster; otherwise the selector defaults to
an exact-name match. -/
def specShowSelector (name selector : String) : String :=
  if selector = "" then (if name = "all" then "" else "name=" ++ name) else selector

/-- The spec's `ResolvePrimaryPod` on the modelled manager: the name of the
first ready primary pod in the listing for the cluster, or the error of the
failed listing, or "primary pod is not in Ready state". -/
def specPrimaryPod (u : Consts) (w : ManagerState) (c : crv1.Pgcluster) : Except String String :=
  match w.pods (topologySelector u c.Spec.Name) with
  | (_, some e) => .error e
  | (pods, none) =>
    match pods.Items.find? (specReadyPrimary u) with
    | some p => .ok p.Name
    | none => .error "primary pod is not in Ready state"

/-- The spec's status item for a listed cluster whose primary pod is
`podname`: the cluster's name and, as status text, what `pgbackrest info`
prints in the `database` container of that pod or, when the command fails,
the text of its error. -/
def specShowItem (w : ManagerState) (c : crv1.Pgcluster) (podname : String) :
    msgs.ShowBackrestDetail :=
  match w.exec ["pgbackrest", "info"] "database" podname with
  | (_, _, some e) => { Name := c.Name, Info := e }
  | (output, _, none) => { Name := c.Name, Info := output }

/-- The spec's status items for the listed clusters, in listing order, as long
as the primary pod resolves: the items, and the error at which the listing is
cut short if there is one. -/
def specShowItems (u : Consts) (w : ManagerState) :
    List crv1.Pgcluster → List msgs.ShowBackrestDetail × Option String
  | [] => ([], none)
  | c :: rest =>
    match specPrimaryPod u w c with
    | .error e => ([], some e)
    | .ok podname =>
      (specShowItem w c podname :: (specShowItems u w rest).1, (specShowItems u w rest).2)

/-- A manager with the clusters `db1` and `db2`: the primary pod of `db1` is
not ready, the primary pod `db2-0` of `db2` is ready, and `pgbackrest info`
fails in every pod. -/
def demoManagerTwo : ManagerState where
  clusters _ := none
  clusterQuery _ :=
    ({ Items := [{ Name := "db1", Spec := { Name := "db1", UserLabels := StrMap.make } },
                 { Name := "db2", Spec := { Name := "db2", UserLabels := StrMap.make } }] }, none)
  pgtasks := []
  pods selector :=
    if selector = topologySelector demoConsts "db1" then ({ Items := [demoPod false] }, none)
    else ({ Items := [{ demoPod true with Name := "db2-0" }] }, none)
  deployments _ := ({ Items := [] }, none)
  deleteJobsOutcomes := []
  getJobsOutcomes := []
  exec _ _ _ := ("", "", some "command terminated with exit code 1")

/-! ## Lemmas on the helpers -/

theorem StrMap.set_same (m : StrMap) (k v : String) : (m.set k v) k = v := by
  simp [StrMap.set]

theorem StrMap.set_other (m : StrMap) (k v x : String) (h : x ≠ k) : (m.set k v) x = m x := by
  simp [StrMap.set, h]

theorem isReady.count_eq (l : List v1.ContainerStatus) (r c : Nat) :
    isReady.count l (r, c) = (r + l.countP (fun stat => stat.Ready), c + l.length) := by
  induction l generalizing r c with
  | nil => simp [isReady.count]
  | cons stat rest ih =>
    cases hs : stat.Ready
    · simp [isReady.count, ih, hs]; omega
    · simp [isReady.count, ih, hs]; omega

theorem isPrimary_and_isReady (u : Consts) (p : v1.Pod) :
    (isPrimary u p && isReady p) = specReadyPrimary u p := by
  simp only [isPrimary, isReady, isReady.count_eq, specReadyPrimary]
  by_cases h1 : p.Labels u.LABEL_PRIMARY = "true" <;>
    by_cases h2 : p.ContainerStatuses.countP (fun stat => stat.Ready) = p.ContainerStatuses.length <;>
    simp [h1, h2]

theorem getPrimaryPodName.loop_eq_find (u : Consts) (pods : List v1.Pod) :
    getPrimaryPodName.loop u pods = (pods.find? (specReadyPrimary u)).map (fun p => p.Name) := by
  induction pods with
  | nil => rfl
  | cons p rest ih =>
    simp only [getPrimaryPodName.loop, isPrimary_and_isReady, List.find?_cons]
    cases specReadyPrimary u p <;> simp [ih]

theorem getPrimaryPodName_eq_find {σ : Type} (k : KubeAPI σ) (u : Consts)
    (cluster : crv1.Pgcluster) (s s1 : σ) (pods : v1.PodList)
    (hlist : k.GetPods (topologySelector u cluster.Spec.Name) s = ((pods, none), s1)) :
    getPrimaryPodName k u cluster s =
      match pods.Items.find? (specReadyPrimary u) with
      | some p => ((p.Name, none), s1)
      | none => (("", some "primary pod is not in Ready state"), s1) := by
  have hsel : u.LABEL_PGPOOL ++ "!=true," ++ u.LABEL_PG_CLUSTER ++ "=" ++ cluster.Spec.Name
      ++ "," ++ u.LABEL_PRIMARY ++ "=true" = topologySelector u cluster.Spec.Name := rfl
  simp only [getPrimaryPodName, hsel, hlist, getPrimaryPodName.loop_eq_find]
  cases pods.Items.find? (specReadyPrimary u) <;> rfl

theorem getPrimaryPodName_of_error {σ : Type} (k : KubeAPI σ) (u : Consts)
    (cluster : crv1.Pgcluster) (s s1 : σ) (pods : v1.PodList) (e : String)
    (hlist : k.GetPods (topologySelector u cluster.Spec.Name) s = ((pods, some e), s1)) :
    getPrimaryPodName k u cluster s = (("", some e), s1) := by
  have hsel : u.LABEL_PGPOOL ++ "!=true," ++ u.LABEL_PG_CLUSTER ++ "=" ++ cluster.Spec.Name
      ++ "," ++ u.LABEL_PRIMARY ++ "=true" = topologySelector u cluster.Spec.Name := rfl
  simp only [getPrimaryPodName, hsel, hlist]

theorem getDeployName_singleton {σ : Type} (k : KubeAPI σ) (u : Consts)
    (cluster : crv1.Pgcluster) (s s1 : σ) (d : v1beta1.Deployment)
    (hlist : k.GetDeployments (topologySelector u cluster.Spec.Name) s
      = (({ Items := [d] }, none), s1)) :
    getDeployName k u cluster s = ((d.Name, none), s1) := by
  have hsel : u.LABEL_PGPOOL ++ "!=true," ++ u.LABEL_PG_CLUSTER ++ "=" ++ cluster.Spec.Name
      ++ "," ++ u.LABEL_PRIMARY ++ "=true" = topologySelector u cluster.Spec.Name := rfl
  simp [getDeployName, hsel, hlist]

/-! ### The loop body of `CreateBackup` on an arbitrary API -/

theorem CreateBackup.body_ineligible {σ : Type} (k : KubeAPI σ) (u : Consts)
    (request : msgs.CreateBackrestBackupRequest) (c : String)
    (resp : msgs.CreateBackrestBackupResponse) (cl : crv1.Pgcluster) (s s1 : σ)
    (hcluster : k.Getpgcluster c s = ((cl, true, none), s1))
    (hlabel : cl.Spec.UserLabels u.LABEL_BACKREST ≠ "true") :
    CreateBackup.body k u request c resp s =
      ((.stop, { resp with Status := { Code := .Error,
                                        Msg := c ++ " does not have pgbackrest enabled" } }), s1) := by
  simp [CreateBackup.body, hcluster, hlabel]

theorem CreateBackup.issue_created {σ : Type} (k : KubeAPI σ) (u : Consts)
    (request : msgs.CreateBackrestBackupRequest) (c taskName : String)
    (resp : msgs.CreateBackrestBackupResponse) (cl : crv1.Pgcluster) (pods : v1.PodList)
    (p : v1.Pod) (d : v1beta1.Deployment) (s2 s3 s4 s5 : σ)
    (hpods : k.GetPods (topologySelector u cl.Spec.Name) s2 = ((pods, none), s3))
    (hp : pods.Items.find? (specReadyPrimary u) = some p)
    (hdeps : k.GetDeployments (topologySelector u cl.Spec.Name) s3
      = (({ Items := [d] }, none), s4))
    (hcreate : k.Createpgtask (getBackupParams u d.Name c taskName u.PgtaskBackrestBackup p.Name
      "database" request.BackupOpts) s4 = (none, s5)) :
    CreateBackup.issue k u request c taskName cl resp s2 =
      ((.next, { resp with Results := resp.Results ++ ["created Pgtask " ++ taskName] }), s5) := by
  simp only [CreateBackup.issue, getPrimaryPodName_eq_find k u cl s2 s3 pods hpods, hp,
    getDeployName_singleton k u cl s3 s4 d hdeps, hcreate]

theorem CreateBackup.issue_not_ready {σ : Type} (k : KubeAPI σ) (u : Consts)
    (request : msgs.CreateBackrestBackupRequest) (c taskName : String)
    (resp : msgs.CreateBackrestBackupResponse) (cl : crv1.Pgcluster) (pods : v1.PodList)
    (s2 s3 : σ)
    (hpods : k.GetPods (topologySelector u cl.Spec.Name) s2 = ((pods, none), s3))
    (hp : pods.Items.find? (specReadyPrimary u) = none) :
    CreateBackup.issue k u request c taskName cl resp s2 =
      ((.stop, { resp with Status := { Code := .Error,
                                        Msg := "primary pod is not in Ready state" } }), s3) := by
  simp only [CreateBackup.issue, getPrimaryPodName_eq_find k u cl s2 s3 pods hpods, hp]

theorem CreateBackup.body_fresh {σ : Type} (k : KubeAPI σ) (u : Consts)
    (request : msgs.CreateBackrestBackupRequest) (c : String)
    (resp : msgs.CreateBackrestBackupResponse) (cl : crv1.Pgcluster) (e : error) (s s1 s2 : σ)
    (hcluster : k.Getpgcluster c s = ((cl, true, none), s1))
    (henabled : cl.Spec.UserLabels u.LABEL_BACKREST = "true")
    (htask : k.Getpgtask (c ++ "-backrest-backup") s1 = ((false, e), s2)) :
    CreateBackup.body k u request c resp s =
      CreateBackup.issue k u request c (c ++ "-backrest-backup") cl resp s2 := by
  simp [CreateBackup.body, hcluster, henabled, htask]

theorem CreateBackup.body_lookup_error {σ : Type} (k : KubeAPI σ) (u : Consts)
    (request : msgs.CreateBackrestBackupRequest) (c : String)
    (resp : msgs.CreateBackrestBackupResponse) (cl : crv1.Pgcluster) (e : String) (s s1 s2 : σ)
    (hcluster : k.Getpgcluster c s = ((cl, true, none), s1))
    (henabled : cl.Spec.UserLabels u.LABEL_BACKREST = "true")
    (htask : k.Getpgtask (c ++ "-backrest-backup") s1 = ((true, some e), s2)) :
    CreateBackup.body k u request c resp s =
      ((.stop, { resp with
        Results := resp.Results ++ ["error getting pgtask for " ++ (c ++ "-backrest-backup")] }),
        s2) := by
  simp [CreateBackup.body, hcluster, henabled, htask]

theorem CreateBackup.body_reclaim {σ : Type} (k : KubeAPI σ) (u : Consts)
    (request : msgs.CreateBackrestBackupRequest) (c : String)
    (resp : msgs.CreateBackrestBackupResponse) (cl : crv1.Pgcluster) (s s1 s2 s3 : σ)
    (hcluster : k.Getpgcluster c s = ((cl, true, none), s1))
    (henabled : cl.Spec.UserLabels u.LABEL_BACKREST = "true")
    (htask : k.Getpgtask (c ++ "-backrest-backup") s1 = ((true, none), s2))
    (hdelete : k.Deletepgtask (c ++ "-backrest-backup") s2 = (none, s3)) :
    CreateBackup.body k u request c resp s =
      CreateBackup.issue k u request c (c ++ "-backrest-backup") cl resp
        (CreateBackup.waitJobs k (jobSelector u c) 3 (k.DeleteJobs (jobSelector u c) s3).2) := by
  have hsel : u.LABEL_PG_CLUSTER ++ "=" ++ c ++ "," ++ u.LABEL_BACKREST ++ "=true"
      = jobSelector u c := rfl
  simp [CreateBackup.body, hcluster, henabled, htask, hdelete, hsel]

theorem CreateBackup.of_args {σ : Type} (k : KubeAPI σ) (u : Consts)
    (request : msgs.CreateBackrestBackupRequest) (s : σ) (hsel : request.Selector = "") :
    CreateBackup k u request s = CreateBackup.loop k u request request.Args
      { Results := [], Status := { Code := .Ok, Msg := "" } } s := by
  simp [CreateBackup, hsel]

theorem CreateBackup.loop_stop {σ : Type} (k : KubeAPI σ) (u : Consts)
    (request : msgs.CreateBackrestBackupRequest) (c : String) (rest : List String)
    (resp resp1 : msgs.CreateBackrestBackupResponse) (s s1 : σ)
    (hbody : CreateBackup.body k u request c resp s = ((.stop, resp1), s1)) :
    CreateBackup.loop k u request (c :: rest) resp s = (resp1, s1) := by
  simp [CreateBackup.loop, hbody]

theorem CreateBackup.loop_single {σ : Type} (k : KubeAPI σ) (u : Consts)
    (request : msgs.CreateBackrestBackupRequest) (c : String)
    (flow : CreateBackup.Flow) (resp resp1 : msgs.CreateBackrestBackupResponse) (s s1 : σ)
    (hbody : CreateBackup.body k u request c resp s = ((flow, resp1), s1)) :
    CreateBackup.loop k u request [c] resp s = (resp1, s1) := by
  cases flow <;> simp [CreateBackup.loop, hbody]

theorem CreateBackup.waitJobs_traced {σ : Type} (k : KubeAPI σ) (selector : String) (n : Nat)
    (s : σ) (t : List Call) :
    ∃ mid : List Call, (∀ x ∈ mid, x = Call.GetJobs selector ∨ x = Call.Sleep 2) ∧
      CreateBackup.waitJobs (traced k) selector n (s, t)
        = (CreateBackup.waitJobs k selector n s, t ++ mid) := by
  induction n generalizing s t with
  | zero => exact ⟨[], by simp, by simp [CreateBackup.waitJobs]⟩
  | succ n ih =>
    by_cases hlen : (k.GetJobs selector s).1.1.Items.length > 0
    · obtain ⟨mid, hmid, hrun⟩ := ih (k.Sleep 2 (k.GetJobs selector s).2)
        (t ++ [Call.GetJobs selector] ++ [Call.Sleep 2])
      refine ⟨Call.GetJobs selector :: Call.Sleep 2 :: mid, ?_, ?_⟩
      · intro x hx
        simp only [List.mem_cons] at hx
        rcases hx with hx | hx | hx
        · exact Or.inl hx
        · exact Or.inr hx
        · exact hmid x hx
      · simp only [CreateBackup.waitJobs, traced, hlen, if_true]
        simp only [traced] at hrun
        rw [hrun]
        simp
    · obtain ⟨mid, hmid, hrun⟩ := ih (k.GetJobs selector s).2 (t ++ [Call.GetJobs selector])
      refine ⟨Call.GetJobs selector :: mid, ?_, ?_⟩
      · intro x hx
        simp only [List.mem_cons] at hx
        rcases hx with hx | hx
        · exact Or.inl hx
        · exact hmid x hx
      · simp only [CreateBackup.waitJobs, traced, hlen, if_false]
        simp only [traced] at hrun
        rw [hrun]
        simp

theorem CreateBackup.issue_created_traced {σ : Type} (k : KubeAPI σ) (u : Consts)
    (request : msgs.CreateBackrestBackupRequest) (c taskName : String)
    (resp : msgs.CreateBackrestBackupResponse) (cl : crv1.Pgcluster) (pods : v1.PodList)
    (p : v1.Pod) (d : v1beta1.Deployment) (s2 s3 s4 s5 : σ) (t : List Call)
    (hpods : k.GetPods (topologySelector u cl.Spec.Name) s2 = ((pods, none), s3))
    (hp : pods.Items.find? (specReadyPrimary u) = some p)
    (hdeps : k.GetDeployments (topologySelector u cl.Spec.Name) s3
      = (({ Items := [d] }, none), s4))
    (hcreate : k.Createpgtask (getBackupParams u d.Name c taskName u.PgtaskBackrestBackup p.Name
      "database" request.BackupOpts) s4 = (none, s5)) :
    CreateBackup.issue (traced k) u request c taskName cl resp (s2, t) =
      ((.next, { resp with Results := resp.Results ++ ["created Pgtask " ++ taskName] }),
        (s5, t ++ [Call.GetPods (topologySelector u cl.Spec.Name),
          Call.GetDeployments (topologySelector u cl.Spec.Name),
          Call.Createpgtask (getBackupParams u d.Name c taskName u.PgtaskBackrestBackup p.Name
            "database" request.BackupOpts)])) := by
  rw [CreateBackup.issue_created (traced k) u request c taskName resp cl pods p d (s2, t)
    (s3, t ++ [Call.GetPods (topologySelector u cl.Spec.Name)])
    (s4, t ++ [Call.GetPods (topologySelector u cl.Spec.Name),
      Call.GetDeployments (topologySelector u cl.Spec.Name)])
    (s5, t ++ [Call.GetPods (topologySelector u cl.Spec.Name),
      Call.GetDeployments (topologySelector u cl.Spec.Name),
      Call.Createpgtask (getBackupParams u d.Name c taskName u.PgtaskBackrestBackup p.Name
        "database" request.BackupOpts)])
    (by simp [traced, hpods]) hp (by simp [traced, hdeps]) (by simp [traced, hcreate])]

theorem CreateBackup.fresh_traced {σ : Type} (k : KubeAPI σ) (u : Consts) (c o : String)
    (cl : crv1.Pgcluster) (e : error) (pods : v1.PodList) (p : v1.Pod)
    (d : v1beta1.Deployment) (s s1 s2 s3 s4 s5 : σ) (t : List Call)
    (hcluster : k.Getpgcluster c s = ((cl, true, none), s1))
    (henabled : cl.Spec.UserLabels u.LABEL_BACKREST = "true")
    (htask : k.Getpgtask (c ++ "-backrest-backup") s1 = ((false, e), s2))
    (hpods : k.GetPods (topologySelector u cl.Spec.Name) s2 = ((pods, none), s3))
    (hp : pods.Items.find? (specReadyPrimary u) = some p)
    (hdeps : k.GetDeployments (topologySelector u cl.Spec.Name) s3
      = (({ Items := [d] }, none), s4))
    (hcreate : k.Createpgtask (backupTask u c o p.Name d.Name) s4 = (none, s5)) :
    CreateBackup (traced k) u { Args := [c], Selector := "", BackupOpts := o } (s, t) =
      ({ Results := ["created Pgtask " ++ (c ++ "-backrest-backup")],
         Status := { Code := .Ok, Msg := "" } },
        (s5, t ++ [Call.Getpgcluster c, Call.Getpgtask (c ++ "-backrest-backup"),
          Call.GetPods (topologySelector u cl.Spec.Name),
          Call.GetDeployments (topologySelector u cl.Spec.Name),
          Call.Createpgtask (backupTask u c o p.Name d.Name)])) := by
  rw [CreateBackup.of_args _ _ _ _ rfl]
  apply CreateBackup.loop_single (traced k) u _ c .next
  rw [CreateBackup.body_fresh (traced k) u _ c _ cl e (s, t)
    (s1, t ++ [Call.Getpgcluster c])
    (s2, t ++ [Call.Getpgcluster c, Call.Getpgtask (c ++ "-backrest-backup")])
    (by simp [traced, hcluster]) henabled (by simp [traced, htask])]
  rw [CreateBackup.issue_created_traced k u { Args := [c], Selector := "", BackupOpts := o } c
    (c ++ "-backrest-backup") _ cl pods p d s2 s3 s4 s5 _ hpods hp hdeps hcreate]
  simp [backupTask]

/-! ## Topology resolution -/

/-- C3: when the pod listing comes back without error, `getPrimaryPodName`
returns the name of the first listed pod whose primary label is `"true"` and
whose ready-container count equals its container count; it fails with
"primary pod is not in Ready state" exactly when no listed pod passes both
tests; in particular it returns the name of the one passing pod when there is
exactly one, and fails when the listing is empty. -/
theorem getPrimaryPodName_first_ready_primary {σ : Type} (k : KubeAPI σ) (u : Consts)
    (cluster : crv1.Pgcluster) (s s1 : σ) (pods : v1.PodList)
    (hlist : k.GetPods (topologySelector u cluster.Spec.Name) s = ((pods, none), s1)) :
    (∀ pre p post, pods.Items = pre ++ p :: post →
        (∀ q ∈ pre, specReadyPrimary u q = false) → specReadyPrimary u p = true →
        getPrimaryPodName k u cluster s = ((p.Name, none), s1)) ∧
    ((getPrimaryPodName k u cluster s).1.2 = some "primary pod is not in Ready state" ↔
        ∀ q ∈ pods.Items, specReadyPrimary u q = false) ∧
    ((∀ q ∈ pods.Items, specReadyPrimary u q = false) →
        getPrimaryPodName k u cluster s = (("", some "primary pod is not in Ready state"), s1)) ∧
    (∀ p, pods.Items.filter (specReadyPrimary u) = [p] →
        getPrimaryPodName k u cluster s = ((p.Name, none), s1)) ∧
    (pods.Items = [] →
        getPrimaryPodName k u cluster s = (("", some "primary pod is not in Ready state"), s1)) := by
  have hsel : u.LABEL_PGPOOL ++ "!=true," ++ u.LABEL_PG_CLUSTER ++ "=" ++ cluster.Spec.Name
      ++ "," ++ u.LABEL_PRIMARY ++ "=true" = topologySelector u cluster.Spec.Name := rfl
  have hdef : getPrimaryPodName k u cluster s =
      match pods.Items.find? (specReadyPrimary u) with
      | some p => ((p.Name, none), s1)
      | none => (("", some "primary pod is not in Ready state"), s1) := by
    simp only [getPrimaryPodName, hsel, hlist, getPrimaryPodName.loop_eq_find]
    cases pods.Items.find? (specReadyPrimary u) <;> rfl
  have hfirst : ∀ pre p post, pods.Items = pre ++ p :: post →
      (∀ q ∈ pre, specReadyPrimary u q = false) → specReadyPrimary u p = true →
      pods.Items.find? (specReadyPrimary u) = some p := by
    intro pre p post hsplit hpre hp
    rw [hsplit]
    clear hsplit
    induction pre with
    | nil => simp [hp]
    | cons q pre ih =>
      have hq : specReadyPrimary u q = false := hpre q (List.mem_cons_self q pre)
      simp only [List.cons_append, List.find?_cons, hq]
      exact ih (fun r hr => hpre r (List.mem_cons_of_mem q hr))
  have hnone : (∀ q ∈ pods.Items, specReadyPrimary u q = false) →
      pods.Items.find? (specReadyPrimary u) = none := by
    intro h
    rw [List.find?_eq_none]
    intro q hq
    simp [h q hq]
  refine ⟨?_, ?_, ?_, ?_, ?_⟩
  · intro pre p post hsplit hpre hp
    rw [hdef, hfirst pre p post hsplit hpre hp]
  · constructor
    · intro herr q hq
      rw [hdef] at herr
      cases hfind : pods.Items.find? (specReadyPrimary u) with
      | some p => rw [hfind] at herr; simp at herr
      | none =>
        rw [List.find?_eq_none] at hfind
        simpa using hfind q hq
    · intro h
      rw [hdef, hnone h]
  · intro h
    rw [hdef, hnone h]
  · intro p hp
    have hmem : p ∈ pods.Items.filter (specReadyPrimary u) := by
      rw [hp]; exact List.mem_singleton_self p
    obtain ⟨pre, post, hsplit⟩ := List.append_of_mem (List.mem_filter.mp hmem).1
    have hgood : specReadyPrimary u p = true := (List.mem_filter.mp hmem).2
    have hpre : ∀ q ∈ pre, specReadyPrimary u q = false := by
      intro q hq
      by_contra hne
      have hqt : specReadyPrimary u q = true := by simpa using hne
      have hfil : pods.Items.filter (specReadyPrimary u)
          = pre.filter (specReadyPrimary u) ++ p :: post.filter (specReadyPrimary u) := by
        rw [hsplit, List.filter_append, List.filter_cons_of_pos hgood]
      have hqmem : q ∈ pre.filter (specReadyPrimary u) := List.mem_filter.mpr ⟨hq, hqt⟩
      rw [hp] at hfil
      have hlen := congrArg List.length hfil
      have hpos : 0 < (pre.filter (specReadyPrimary u)).length := List.length_pos_of_mem hqmem
      simp only [List.length_append, List.length_cons, List.length_nil] at hlen
      omega
    rw [hdef, hfirst pre p post hsplit hpre hgood]
  · intro hnil
    rw [hdef, hnil]
    rfl

/-- Witness of C3 on the modelled manager: when the listing for `db1` holds
the one ready primary pod `db1-0`, `getPrimaryPodName` yields `db1-0`. -/
theorem getPrimaryPodName_first_ready_primary_witness :
    managerAPI.GetPods (topologySelector demoConsts (demoCluster "true").Spec.Name)
        (demoManager "true" [demoPod true] [] [])
      = (({ Items := [demoPod true] }, none), demoManager "true" [demoPod true] [] []) ∧
    getPrimaryPodName managerAPI demoConsts (demoCluster "true")
        (demoManager "true" [demoPod true] [] [])
      = (("db1-0", none), demoManager "true" [demoPod true] [] []) :=
  ⟨rfl, (getPrimaryPodName_first_ready_primary managerAPI demoConsts (demoCluster "true")
    (demoManager "true" [demoPod true] [] []) (demoManager "true" [demoPod true] [] [])
    { Items := [demoPod true] } rfl).1 [] (demoPod true) [] rfl (by simp) (by decide)⟩

theorem String.append_ne_of_head_ne (a b x : String) (c d : Char) (la lb : List Char)
    (ha : a.data = c :: la) (hb : b.data = d :: lb) (hcd : c ≠ d) : a ++ x ≠ b := by
  intro h
  have hdata := congrArg String.data h
  rw [String.data_append, ha, hb] at hdata
  simp only [List.cons_append, List.cons.injEq] at hdata
  exact hcd hdata.1

/-- C4: when the deployment listing comes back without error, `getDeployName`
succeeds if and only if the listing has exactly one entry, and then returns
that entry's name; with any other number of entries it returns no name and
the "deployment count is wrong" error; the "unknown error" return after the
loop is never taken. -/
theorem getDeployName_exactly_one {σ : Type} (k : KubeAPI σ) (u : Consts)
    (cluster : crv1.Pgcluster) (s s1 : σ) (deps : v1beta1.DeploymentList)
    (hlist : k.GetDeployments (topologySelector u cluster.Spec.Name) s = ((deps, none), s1)) :
    ((getDeployName k u cluster s).1.2 = none ↔ deps.Items.length = 1) ∧
    (∀ d, deps.Items = [d] → getDeployName k u cluster s = ((d.Name, none), s1)) ∧
    (deps.Items.length ≠ 1 →
        getDeployName k u cluster s = (("", some
          ("error:  deployment count is wrong for backrest backup " ++ cluster.Spec.Name)), s1)) ∧
    (getDeployName k u cluster s).1.2 ≠ some "unknown error in backrest backup" := by
  have hsel : u.LABEL_PGPOOL ++ "!=true," ++ u.LABEL_PG_CLUSTER ++ "=" ++ cluster.Spec.Name
      ++ "," ++ u.LABEL_PRIMARY ++ "=true" = topologySelector u cluster.Spec.Name := rfl
  have hone : ∀ d, deps.Items = [d] → getDeployName k u cluster s = ((d.Name, none), s1) := by
    intro d hd
    simp [getDeployName, hsel, hlist, hd]
  have hwrong : deps.Items.length ≠ 1 →
      getDeployName k u cluster s = (("", some
        ("error:  deployment count is wrong for backrest backup " ++ cluster.Spec.Name)), s1) := by
    intro hlen
    simp [getDeployName, hsel, hlist, hlen]
  have hne : "error:  deployment count is wrong for backrest backup " ++ cluster.Spec.Name
      ≠ "unknown error in backrest backup" :=
    String.append_ne_of_head_ne _ _ _ 'e' 'u' _ _ rfl rfl (by decide)
  by_cases hlen : deps.Items.length = 1
  · obtain ⟨d, hd⟩ := List.length_eq_one.mp hlen
    refine ⟨?_, hone, hwrong, ?_⟩
    · rw [hone d hd]; simp [hlen]
    · rw [hone d hd]; simp
  · refine ⟨?_, hone, hwrong, ?_⟩
    · rw [hwrong hlen]; simp [hlen]
    · rw [hwrong hlen]
      intro h
      exact hne (Option.some.inj h)

/-- Witness of C4 on the modelled manager: with the one deployment `db1`
listed, `getDeployName` yields `db1`. -/
theorem getDeployName_exactly_one_witness :
    managerAPI.GetDeployments (topologySelector demoConsts (demoCluster "true").Spec.Name)
        (demoManager "true" [] [{ Name := "db1" }] [])
      = (({ Items := [{ Name := "db1" }] }, none), demoManager "true" [] [{ Name := "db1" }] []) ∧
    getDeployName managerAPI demoConsts (demoCluster "true")
        (demoManager "true" [] [{ Name := "db1" }] [])
      = (("db1", none), demoManager "true" [] [{ Name := "db1" }] []) :=
  ⟨rfl, (getDeployName_exactly_one managerAPI demoConsts (demoCluster "true")
    (demoManager "true" [] [{ Name := "db1" }] []) (demoManager "true" [] [{ Name := "db1" }] [])
    { Items := [{ Name := "db1" }] } rfl).2.1 { Name := "db1" } rfl⟩

/-! ## Restore descriptors -/

/-- C6: `getRestoreParams` names the descriptor, in its object name and in its
spec, `backrest-restore-<from>-to-<to>`, sets the data-path parameter to
`/pgdata/<to>` and the repo-path parameter to `/backrestrepo/<from>-backups`
(the two parameters having different keys); the name depends on `from` and
`to` alone, so two requests that agree on them get the same name. -/
theorem getRestoreParams_identity_and_paths (u : Consts) (request : msgs.RestoreRequest)
    (hkeys : u.LABEL_PGBACKREST_DB_PATH ≠ u.LABEL_PGBACKREST_REPO_PATH) :
    (getRestoreParams u request).Name
        = "backrest-restore-" ++ request.FromCluster ++ "-to-" ++ request.ToPVC ∧
    (getRestoreParams u request).Spec.Name
        = "backrest-restore-" ++ request.FromCluster ++ "-to-" ++ request.ToPVC ∧
    (getRestoreParams u request).Spec.Parameters u.LABEL_PGBACKREST_DB_PATH
        = "/pgdata/" ++ request.ToPVC ∧
    (getRestoreParams u request).Spec.Parameters u.LABEL_PGBACKREST_REPO_PATH
        = "/backrestrepo/" ++ request.FromCluster ++ "-backups" ∧
    (∀ other : msgs.RestoreRequest, other.FromCluster = request.FromCluster →
        other.ToPVC = request.ToPVC →
        (getRestoreParams u other).Name = (getRestoreParams u request).Name ∧
        (getRestoreParams u other).Spec.Name = (getRestoreParams u request).Spec.Name) := by
  refine ⟨rfl, rfl, ?_, ?_, ?_⟩
  · simp only [getRestoreParams]
    rw [StrMap.set_other _ _ _ _ hkeys, StrMap.set_same]
  · simp only [getRestoreParams]
    rw [StrMap.set_same]
  · intro other hfrom hto
    simp only [getRestoreParams, hfrom, hto, and_self]

/-- Witness of C6: restoring `db1` to `db1-restored` gives the descriptor
`backrest-restore-db1-to-db1-restored` with data path `/pgdata/db1-restored`
and repo path `/backrestrepo/db1-backups`. -/
theorem getRestoreParams_identity_and_paths_witness :
    demoConsts.LABEL_PGBACKREST_DB_PATH ≠ demoConsts.LABEL_PGBACKREST_REPO_PATH ∧
    (getRestoreParams demoConsts
        { FromCluster := "db1", ToPVC := "db1-restored", RestoreOpts := "" }).Name
      = "backrest-restore-db1-to-db1-restored" ∧
    (getRestoreParams demoConsts
        { FromCluster := "db1", ToPVC := "db1-restored", RestoreOpts := "" }).Spec.Parameters
        demoConsts.LABEL_PGBACKREST_DB_PATH = "/pgdata/db1-restored" ∧
    (getRestoreParams demoConsts
        { FromCluster := "db1", ToPVC := "db1-restored", RestoreOpts := "" }).Spec.Parameters
        demoConsts.LABEL_PGBACKREST_REPO_PATH = "/backrestrepo/db1-backups" :=
  have h := getRestoreParams_identity_and_paths demoConsts
    { FromCluster := "db1", ToPVC := "db1-restored", RestoreOpts := "" } (by decide)
  ⟨by decide, h.1.trans (by decide), h.2.2.1.trans (by decide), h.2.2.2.1.trans (by decide)⟩

/-! ## Backup issuance -/

/-- C1: when the first target `c` of `CreateBackup` exists (`Getpgcluster`
reports it found, without error) and its backup-enabled user label is not
`"true"`, the response has status `Error` with message
`<c> does not have pgbackrest enabled` and no result line, and the cluster
lookup is the only call made: no task lookup, task creation, task deletion
or job deletion follows it, whatever the API is.  On the modelled manager
the whole state, task descriptors included, is what it was before. -/
theorem CreateBackup_ineligible_touches_nothing {σ : Type} (k : KubeAPI σ) (u : Consts)
    (request : msgs.CreateBackrestBackupRequest) (c : String) (rest : List String)
    (cl : crv1.Pgcluster) (s s1 : σ) (t : List Call)
    (hsel : request.Selector = "") (hargs : request.Args = c :: rest)
    (hcluster : k.Getpgcluster c s = ((cl, true, none), s1))
    (hlabel : cl.Spec.UserLabels u.LABEL_BACKREST ≠ "true") :
    CreateBackup (traced k) u request (s, t) =
      ({ Results := [],
         Status := { Code := .Error, Msg := c ++ " does not have pgbackrest enabled" } },
        (s1, t ++ [Call.Getpgcluster c])) ∧
    (∀ w : ManagerState, w.clusters c = some cl →
      CreateBackup managerAPI u request w =
        ({ Results := [],
           Status := { Code := .Error, Msg := c ++ " does not have pgbackrest enabled" } }, w)) := by
  constructor
  · rw [CreateBackup.of_args _ _ _ _ hsel, hargs]
    apply CreateBackup.loop_stop
    rw [CreateBackup.body_ineligible (traced k) u request c _ cl (s, t)
      (s1, t ++ [Call.Getpgcluster c]) (by simp [traced, hcluster]) hlabel]
  · intro w hw
    rw [CreateBackup.of_args _ _ _ _ hsel, hargs]
    apply CreateBackup.loop_stop
    rw [CreateBackup.body_ineligible managerAPI u request c _ cl w w
      (by simp [managerAPI, hw]) hlabel]

/-- Witness of C1 on the modelled manager: `db1` exists with the label set to
`"false"`; the request ends with status `Error`, the trace holds the cluster
lookup alone and the manager is in the state it started in. -/
theorem CreateBackup_ineligible_touches_nothing_witness :
    managerAPI.Getpgcluster "db1" (demoManager "false" [] [] [])
      = ((demoCluster "false", true, none), demoManager "false" [] [] []) ∧
    (demoCluster "false").Spec.UserLabels demoConsts.LABEL_BACKREST ≠ "true" ∧
    CreateBackup (traced managerAPI) demoConsts
        { Args := ["db1"], Selector := "", BackupOpts := "" } (demoManager "false" [] [] [], [])
      = ({ Results := [],
           Status := { Code := .Error, Msg := "db1 does not have pgbackrest enabled" } },
          (demoManager "false" [] [] [], [Call.Getpgcluster "db1"])) :=
  ⟨rfl, by decide,
    (CreateBackup_ineligible_touches_nothing managerAPI demoConsts
      { Args := ["db1"], Selector := "", BackupOpts := "" } "db1" [] (demoCluster "false")
      (demoManager "false" [] [] []) (demoManager "false" [] [] []) [] rfl rfl rfl
      (by decide)).1⟩

/-- C2: for every cluster name `c` and options string `o`, if `c` exists with
the backup-enabled label `"true"`, the task lookup finds no prior descriptor,
the pod listing succeeds with `p` its first ready primary pod, the deployment
listing succeeds with exactly one entry `d` and the creation succeeds, then
`CreateBackup` on `Args = [c]`, `BackupOpts = o` returns status `Ok` with
results `["created Pgtask c-backrest-backup"]`, and makes exactly the calls
cluster lookup, task lookup, pod listing, deployment listing and one task
creation.  The created descriptor is named `c-backrest-backup` in its object
name and in its spec, and its parameters (the five keys being different) map
the cluster key to `c`, the pod key to `p`, the container key to
`"database"`, the command key to the backup action and the options key to
`o`. -/
theorem CreateBackup_creates_backup_task {σ : Type} (k : KubeAPI σ) (u : Consts) (c o : String)
    (cl : crv1.Pgcluster) (e : error) (pods : v1.PodList) (p : v1.Pod)
    (d : v1beta1.Deployment) (s s1 s2 s3 s4 s5 : σ)
    (hkeys : [u.LABEL_PG_CLUSTER, u.LABEL_POD_NAME, u.LABEL_CONTAINER_NAME,
      u.LABEL_BACKREST_COMMAND, u.LABEL_BACKREST_OPTS].Nodup)
    (hcluster : k.Getpgcluster c s = ((cl, true, none), s1))
    (henabled : cl.Spec.UserLabels u.LABEL_BACKREST = "true")
    (htask : k.Getpgtask (c ++ "-backrest-backup") s1 = ((false, e), s2))
    (hpods : k.GetPods (topologySelector u cl.Spec.Name) s2 = ((pods, none), s3))
    (hp : pods.Items.find? (specReadyPrimary u) = some p)
    (hdeps : k.GetDeployments (topologySelector u cl.Spec.Name) s3
      = (({ Items := [d] }, none), s4))
    (hcreate : k.Createpgtask (backupTask u c o p.Name d.Name) s4 = (none, s5)) :
    CreateBackup (traced k) u { Args := [c], Selector := "", BackupOpts := o } (s, []) =
      ({ Results := ["created Pgtask " ++ (c ++ "-backrest-backup")],
         Status := { Code := .Ok, Msg := "" } },
        (s5, [Call.Getpgcluster c, Call.Getpgtask (c ++ "-backrest-backup"),
          Call.GetPods (topologySelector u cl.Spec.Name),
          Call.GetDeployments (topologySelector u cl.Spec.Name),
          Call.Createpgtask (backupTask u c o p.Name d.Name)])) ∧
    (backupTask u c o p.Name d.Name).Name = c ++ "-backrest-backup" ∧
    (backupTask u c o p.Name d.Name).Spec.Name = c ++ "-backrest-backup" ∧
    (backupTask u c o p.Name d.Name).Spec.Parameters u.LABEL_PG_CLUSTER = c ∧
    (backupTask u c o p.Name d.Name).Spec.Parameters u.LABEL_POD_NAME = p.Name ∧
    (backupTask u c o p.Name d.Name).Spec.Parameters u.LABEL_CONTAINER_NAME = "database" ∧
    (backupTask u c o p.Name d.Name).Spec.Parameters u.LABEL_BACKREST_COMMAND
      = u.PgtaskBackrestBackup ∧
    (backupTask u c o p.Name d.Name).Spec.Parameters u.LABEL_BACKREST_OPTS = o := by
  refine ⟨CreateBackup.fresh_traced k u c o cl e pods p d s s1 s2 s3 s4 s5 [] hcluster henabled
    htask hpods hp hdeps hcreate, rfl, rfl, ?_⟩
  · simp only [List.nodup_cons, List.mem_cons, List.mem_singleton, not_or, List.not_mem_nil,
      not_false_eq_true, List.nodup_nil, and_true] at hkeys
    obtain ⟨⟨h12, h13, h14, h15⟩, ⟨h23, h24, h25⟩, ⟨h34, h35⟩, h45⟩ := hkeys
    simp [backupTask, getBackupParams, StrMap.set, h12, h13, h14, h15, h23, h24, h25, h34, h35,
      h45]

/-- Witness of C2, the scene of the spec: `db1` is backup-enabled, has the one
ready primary pod `db1-0` and the one deployment `db1`, and no prior task;
`CreateBackup(["db1"], "--type=full")` answers `Ok` with
`created Pgtask db1-backrest-backup` and leaves the manager with the one
descriptor `db1-backrest-backup` for cluster `db1`, pod `db1-0`, container
`database`, command `backup`, options `--type=full`. -/
theorem CreateBackup_creates_backup_task_witness :
    CreateBackup (traced managerAPI) demoConsts
        { Args := ["db1"], Selector := "", BackupOpts := "--type=full" }
        (demoManager "true" [demoPod true] [{ Name := "db1" }] [], []) =
      ({ Results := ["created Pgtask db1-backrest-backup"],
         Status := { Code := .Ok, Msg := "" } },
        (demoManager "true" [demoPod true] [{ Name := "db1" }]
            [backupTask demoConsts "db1" "--type=full" "db1-0" "db1"],
          [Call.Getpgcluster "db1", Call.Getpgtask "db1-backrest-backup",
            Call.GetPods "crunchy-pgpool!=true,pg-cluster=db1,primary=true",
            Call.GetDeployments "crunchy-pgpool!=true,pg-cluster=db1,primary=true",
            Call.Createpgtask (backupTask demoConsts "db1" "--type=full" "db1-0" "db1")])) ∧
    (backupTask demoConsts "db1" "--type=full" "db1-0" "db1").Name = "db1-backrest-backup" ∧
    (backupTask demoConsts "db1" "--type=full" "db1-0" "db1").Spec.Name
      = "db1-backrest-backup" ∧
    (backupTask demoConsts "db1" "--type=full" "db1-0" "db1").Spec.Parameters "pg-cluster"
      = "db1" ∧
    (backupTask demoConsts "db1" "--type=full" "db1-0" "db1").Spec.Parameters "podname"
      = "db1-0" ∧
    (backupTask demoConsts "db1" "--type=full" "db1-0" "db1").Spec.Parameters "containername"
      = "database" ∧
    (backupTask demoConsts "db1" "--type=full" "db1-0" "db1").Spec.Parameters "backrest-command"
      = "backup" ∧
    (backupTask demoConsts "db1" "--type=full" "db1-0" "db1").Spec.Parameters "backrest-opts"
      = "--type=full" :=
  CreateBackup_creates_backup_task managerAPI demoConsts "db1" "--type=full" (demoCluster "true")
    (some "pgtasks db1-backrest-backup not found") { Items := [demoPod true] } (demoPod true)
    { Name := "db1" }
    (demoManager "true" [demoPod true] [{ Name := "db1" }] [])
    (demoManager "true" [demoPod true] [{ Name := "db1" }] [])
    (demoManager "true" [demoPod true] [{ Name := "db1" }] [])
    (demoManager "true" [demoPod true] [{ Name := "db1" }] [])
    (demoManager "true" [demoPod true] [{ Name := "db1" }] [])
    (demoManager "true" [demoPod true] [{ Name := "db1" }]
      [backupTask demoConsts "db1" "--type=full" "db1-0" "db1"])
    (by decide) rfl (by decide) rfl rfl rfl rfl rfl

theorem CreateBackup.issue_stop_status {σ : Type} (k : KubeAPI σ) (u : Consts)
    (request : msgs.CreateBackrestBackupRequest) (c taskName : String) (cl : crv1.Pgcluster)
    (resp resp1 : msgs.CreateBackrestBackupResponse) (s s1 : σ)
    (h : CreateBackup.issue k u request c taskName cl resp s = ((.stop, resp1), s1)) :
    resp1.Status.Code = .Error := by
  rcases hp : getPrimaryPodName k u cl s with ⟨⟨podname, _ | e⟩, s2⟩
  · rcases hd : getDeployName k u cl s2 with ⟨⟨deployName, _ | e⟩, s3⟩
    · rcases hc : k.Createpgtask (getBackupParams u deployName c taskName u.PgtaskBackrestBackup
        podname "database" request.BackupOpts) s3 with ⟨_ | e, s4⟩
      · simp [CreateBackup.issue, hp, hd, hc] at h
      · simp only [CreateBackup.issue, hp, hd, hc] at h
        cases h; rfl
    · simp only [CreateBackup.issue, hp, hd] at h
      cases h; rfl
  · simp only [CreateBackup.issue, hp] at h
    cases h; rfl

theorem CreateBackup.body_stop_status {σ : Type} (k : KubeAPI σ) (u : Consts)
    (request : msgs.CreateBackrestBackupRequest) (c : String)
    (resp resp1 : msgs.CreateBackrestBackupResponse) (s s1 : σ)
    (h : CreateBackup.body k u request c resp s = ((.stop, resp1), s1)) :
    resp1.Status.Code = .Error ∨
      (∃ e, (k.Getpgtask (c ++ "-backrest-backup") (k.Getpgcluster c s).2).1 = (true, some e) ∧
        resp1 = { resp with
          Results := resp.Results ++ ["error getting pgtask for " ++ (c ++ "-backrest-backup")] }) := by
  rcases hcl : k.Getpgcluster c s with ⟨⟨cluster, found, err⟩, s2⟩
  cases found with
  | false =>
    simp only [CreateBackup.body, hcl] at h
    cases h; exact Or.inl rfl
  | true =>
    cases err with
    | some e =>
      simp only [CreateBackup.body, hcl] at h
      cases h; exact Or.inl rfl
    | none =>
      by_cases hlabel : cluster.Spec.UserLabels u.LABEL_BACKREST = "true"
      · rcases htk : k.Getpgtask (c ++ "-backrest-backup") s2 with ⟨⟨found2, err2⟩, s3⟩
        cases found2 with
        | false =>
          simp only [CreateBackup.body, hcl, hlabel, htk] at h
          exact Or.inl (CreateBackup.issue_stop_status k u request c _ _ resp resp1 _ _ (by simpa using h))
        | true =>
          cases err2 with
          | some e =>
            simp [CreateBackup.body, hcl, hlabel, htk] at h
            obtain ⟨h1, _⟩ := h
            exact Or.inr ⟨e, by simp [htk], h1.symm⟩
          | none =>
            rcases hdel : k.Deletepgtask (c ++ "-backrest-backup") s3 with ⟨_ | e, s4⟩
            · simp only [CreateBackup.body, hcl, hlabel, htk, hdel] at h
              exact Or.inl (CreateBackup.issue_stop_status k u request c _ _ resp resp1 _ _
                (by simpa using h))
            · simp [CreateBackup.body, hcl, hlabel, htk, hdel] at h
              obtain ⟨h1, _⟩ := h
              exact Or.inl (by rw [← h1])
      · simp [CreateBackup.body, hcl, hlabel] at h
        obtain ⟨h1, _⟩ := h
        exact Or.inl (by rw [← h1])

/-- C7, the branch on which the code departs from the claim: when the first
target exists and is backup-enabled and the prior-task lookup reports the
descriptor found together with an error, `CreateBackup` stops at that target
with the result line `error getting pgtask for <c>-backrest-backup`, but the
status code stays `Ok` and the status message stays empty. -/
theorem CreateBackup_task_lookup_error_keeps_status_ok {σ : Type} (k : KubeAPI σ) (u : Consts)
    (request : msgs.CreateBackrestBackupRequest) (c : String) (rest : List String)
    (cl : crv1.Pgcluster) (e : String) (s s1 s2 : σ)
    (hsel : request.Selector = "") (hargs : request.Args = c :: rest)
    (hcluster : k.Getpgcluster c s = ((cl, true, none), s1))
    (henabled : cl.Spec.UserLabels u.LABEL_BACKREST = "true")
    (htask : k.Getpgtask (c ++ "-backrest-backup") s1 = ((true, some e), s2)) :
    CreateBackup (traced k) u request (s, []) =
      ({ Results := ["error getting pgtask for " ++ (c ++ "-backrest-backup")],
         Status := { Code := .Ok, Msg := "" } },
        (s2, [Call.Getpgcluster c, Call.Getpgtask (c ++ "-backrest-backup")])) := by
  rw [CreateBackup.of_args _ _ _ _ hsel, hargs]
  apply CreateBackup.loop_stop
  rw [CreateBackup.body_lookup_error (traced k) u request c _ cl e (s, [])
    (s1, [Call.Getpgcluster c])
    (s2, [Call.Getpgcluster c, Call.Getpgtask (c ++ "-backrest-backup")])
    (by simp [traced, hcluster]) henabled (by simp [traced, htask])]
  rfl

/-- Witness of C7's failing input: `db1` is backup-enabled and the task lookup
answers found with an error; the response carries status `Ok` and an empty
message. -/
theorem CreateBackup_task_lookup_error_keeps_status_ok_witness :
    lookupErrorAPI.Getpgtask "db1-backrest-backup" (demoManager "true" [] [] [])
      = ((true, some "the server was unable to return a response"),
          demoManager "true" [] [] []) ∧
    (CreateBackup (traced lookupErrorAPI) demoConsts
        { Args := ["db1"], Selector := "", BackupOpts := "" }
        (demoManager "true" [] [] [], [])).1
      = { Results := ["error getting pgtask for db1-backrest-backup"],
          Status := { Code := .Ok, Msg := "" } } :=
  ⟨rfl, congrArg Prod.fst
    (CreateBackup_task_lookup_error_keeps_status_ok lookupErrorAPI demoConsts
      { Args := ["db1"], Selector := "", BackupOpts := "" } "db1" []
      (demoCluster "true") "the server was unable to return a response"
      (demoManager "true" [] [] []) (demoManager "true" [] [] []) (demoManager "true" [] [] [])
      rfl rfl rfl (by decide) rfl)⟩

/-! ### The modelled manager -/

theorem managerAPI_Getpgcluster (w : ManagerState) (c : String) (cl : crv1.Pgcluster)
    (h : w.clusters c = some cl) : managerAPI.Getpgcluster c w = ((cl, true, none), w) := by
  simp [managerAPI, h]

theorem managerAPI_Getpgtask_found (w : ManagerState) (name : String)
    (h : w.pgtasks.any (fun t => t.Name == name) = true) :
    managerAPI.Getpgtask name w = ((true, none), w) := by
  simp only [managerAPI, h, if_true]

theorem managerAPI_Getpgtask_absent (w : ManagerState) (name : String)
    (h : w.pgtasks.any (fun t => t.Name == name) = false) :
    managerAPI.Getpgtask name w = ((false, some ("pgtasks " ++ name ++ " not found")), w) := by
  simp only [managerAPI, h, Bool.false_eq_true, if_false]

theorem managerAPI_Deletepgtask_found (w : ManagerState) (name : String)
    (h : w.pgtasks.any (fun t => t.Name == name) = true) :
    managerAPI.Deletepgtask name w
      = (none, { w with pgtasks := w.pgtasks.filter (fun t => t.Name != name) }) := by
  simp only [managerAPI, h, if_true]

theorem managerAPI_Createpgtask (w : ManagerState) (task : crv1.Pgtask) :
    managerAPI.Createpgtask task w = (none, { w with pgtasks := w.pgtasks ++ [task] }) := rfl

theorem managerAPI_GetPods (w : ManagerState) (selector : String) :
    managerAPI.GetPods selector w = (w.pods selector, w) := rfl

theorem managerAPI_GetDeployments (w : ManagerState) (selector : String) :
    managerAPI.GetDeployments selector w = (w.deployments selector, w) := rfl

theorem managerAPI_ExecToPodThroughAPI (w : ManagerState) (cmd : List String)
    (container pod : String) :
    managerAPI.ExecToPodThroughAPI cmd container pod w = (w.exec cmd container pod, w) := rfl

theorem managerAPI_Sleep (w : ManagerState) (seconds : Nat) :
    managerAPI.Sleep seconds w = w := rfl

theorem managerAPI_GetJobs (w : ManagerState) (selector : String) :
    (managerAPI.GetJobs selector w).2
      = { w with getJobsOutcomes := w.getJobsOutcomes.drop 1 } := by
  cases w with
  | mk cs cq ts ps ds dj gj ex =>
    cases gj <;> rfl

theorem managerAPI_DeleteJobs (w : ManagerState) (selector : String) :
    (managerAPI.DeleteJobs selector w).2
      = { w with deleteJobsOutcomes := w.deleteJobsOutcomes.drop 1 } := by
  cases w with
  | mk cs cq ts ps ds dj gj ex =>
    cases dj <;> rfl

theorem managerAPI_waitJobs (selector : String) (n : Nat) (w : ManagerState) :
    CreateBackup.waitJobs managerAPI selector n w
      = { w with getJobsOutcomes := w.getJobsOutcomes.drop n } := by
  induction n generalizing w with
  | zero => rfl
  | succ n ih =>
    have hstep : CreateBackup.waitJobs managerAPI selector (n + 1) w
        = CreateBackup.waitJobs managerAPI selector n (managerAPI.GetJobs selector w).2 := by
      simp only [CreateBackup.waitJobs, managerAPI_Sleep, ite_self]
    rw [hstep, ih, managerAPI_GetJobs]
    simp [List.drop_drop, Nat.add_comm]

theorem managerAPI_issue_jobs (u : Consts) (request : msgs.CreateBackrestBackupRequest)
    (c taskName : String) (cl : crv1.Pgcluster) (resp : msgs.CreateBackrestBackupResponse)
    (w : ManagerState) (dj : List error) (gj : List (v1batch.JobList × error)) :
    CreateBackup.issue managerAPI u request c taskName cl resp
        { w with deleteJobsOutcomes := dj, getJobsOutcomes := gj }
      = ((CreateBackup.issue managerAPI u request c taskName cl resp w).1,
          { (CreateBackup.issue managerAPI u request c taskName cl resp w).2 with
            deleteJobsOutcomes := dj, getJobsOutcomes := gj }) := by
  simp only [CreateBackup.issue, getPrimaryPodName, getDeployName, managerAPI_GetPods,
    managerAPI_GetDeployments, managerAPI_Createpgtask]
  rcases hp : w.pods (u.LABEL_PGPOOL ++ "!=true," ++ u.LABEL_PG_CLUSTER ++ "=" ++ cl.Spec.Name
      ++ "," ++ u.LABEL_PRIMARY ++ "=true") with ⟨pl, _ | e⟩
  · rcases hl : getPrimaryPodName.loop u pl.Items with _ | name
    · rfl
    · simp only []
      rcases hd : w.deployments (u.LABEL_PGPOOL ++ "!=true," ++ u.LABEL_PG_CLUSTER ++ "="
          ++ cl.Spec.Name ++ "," ++ u.LABEL_PRIMARY ++ "=true") with ⟨dl, _ | e⟩
      · by_cases hlen : dl.Items.length = 1
        · obtain ⟨d, hd1⟩ := List.length_eq_one.mp hlen
          simp [hd1]
        · simp [hlen]
      · rfl
  · rfl

theorem specReadyPrimary_find_none (u : Consts) (pods : List v1.Pod)
    (h : ∀ q ∈ pods, specReadyPrimary u q = false) : pods.find? (specReadyPrimary u) = none := by
  rw [List.find?_eq_none]
  intro q hq
  simp [h q hq]

/-! ## Backup issuance without a ready primary pod -/

/-- C10 as stated fails: for the backup-enabled cluster `db1` whose only
primary pod is not ready, `CreateBackup` answers status `Error` with the
message "primary pod is not in Ready state", and that message does not
contain the text "not ready", whether or not upper and lower case are told
apart. -/
theorem CreateBackup_not_ready_message_counterexample :
    (demoManager "true" [demoPod false] [{ Name := "db1" }] []).clusters "db1"
      = some (demoCluster "true") ∧
    (demoCluster "true").Spec.UserLabels demoConsts.LABEL_BACKREST = "true" ∧
    specReadyPrimary demoConsts (demoPod false) = false ∧
    (CreateBackup managerAPI demoConsts { Args := ["db1"], Selector := "", BackupOpts := "" }
        (demoManager "true" [demoPod false] [{ Name := "db1" }] [])).1
      = { Results := [],
          Status := { Code := .Error, Msg := "primary pod is not in Ready state" } } ∧
    ¬ containsText
      (CreateBackup managerAPI demoConsts { Args := ["db1"], Selector := "", BackupOpts := "" }
        (demoManager "true" [demoPod false] [{ Name := "db1" }] [])).1.Status.Msg
      "not ready" ∧
    ¬ containsTextAnyCase
      (CreateBackup managerAPI demoConsts { Args := ["db1"], Selector := "", BackupOpts := "" }
        (demoManager "true" [demoPod false] [{ Name := "db1" }] [])).1.Status.Msg
      "not ready" := by
  refine ⟨rfl, by decide, by decide, by decide, by decide, by decide⟩

/-- C10 as amended: for every backup-enabled cluster `c` of the modelled
manager whose pod listing succeeds and holds no ready primary pod,
`CreateBackup` on `Args = [c]` returns status `Error` with the message
"primary pod is not in Ready state" and no result line, and afterwards the
manager holds no task descriptor named `c-backrest-backup`: none is created,
a prior one is deleted, and the descriptors of other names are left as they
were. -/
theorem CreateBackup_no_ready_primary_leaves_no_task (u : Consts) (w : ManagerState)
    (c o : String) (cl : crv1.Pgcluster) (pods : v1.PodList)
    (hcluster : w.clusters c = some cl)
    (henabled : cl.Spec.UserLabels u.LABEL_BACKREST = "true")
    (hpods : w.pods (topologySelector u cl.Spec.Name) = (pods, none))
    (hnone : ∀ q ∈ pods.Items, specReadyPrimary u q = false) :
    (CreateBackup managerAPI u { Args := [c], Selector := "", BackupOpts := o } w).1
      = { Results := [],
          Status := { Code := .Error, Msg := "primary pod is not in Ready state" } } ∧
    (CreateBackup managerAPI u { Args := [c], Selector := "", BackupOpts := o } w).2.pgtasks
      = w.pgtasks.filter (fun t => t.Name != c ++ "-backrest-backup") ∧
    (∀ t ∈ (CreateBackup managerAPI u { Args := [c], Selector := "", BackupOpts := o } w).2.pgtasks,
      t.Name ≠ c ++ "-backrest-backup") := by
  have hfind := specReadyPrimary_find_none u pods.Items hnone
  have hrun : (CreateBackup managerAPI u { Args := [c], Selector := "", BackupOpts := o } w).1
        = { Results := [],
            Status := { Code := .Error, Msg := "primary pod is not in Ready state" } } ∧
      (CreateBackup managerAPI u { Args := [c], Selector := "", BackupOpts := o } w).2.pgtasks
        = w.pgtasks.filter (fun t => t.Name != c ++ "-backrest-backup") := by
    rw [CreateBackup.of_args _ _ _ _ rfl]
    cases hany : w.pgtasks.any (fun t => t.Name == c ++ "-backrest-backup") with
    | false =>
      rw [CreateBackup.loop_single managerAPI u _ c .stop _ _ w w
        (by
          rw [CreateBackup.body_fresh managerAPI u _ c _ cl _ w w w
            (managerAPI_Getpgcluster w c cl hcluster) henabled
            (managerAPI_Getpgtask_absent w _ hany)]
          exact CreateBackup.issue_not_ready managerAPI u _ c _ _ cl pods w w
            (by rw [managerAPI_GetPods, hpods]) hfind)]
      refine ⟨rfl, ?_⟩
      symm
      rw [List.filter_eq_self]
      intro t ht
      have := (List.any_eq_false.mp hany) t ht
      simpa using this
    | true =>
      rw [CreateBackup.loop_single managerAPI u _ c .stop _ _ w _
        (by
          rw [CreateBackup.body_reclaim managerAPI u _ c _ cl w w w _
            (managerAPI_Getpgcluster w c cl hcluster) henabled
            (managerAPI_Getpgtask_found w _ hany) (managerAPI_Deletepgtask_found w _ hany)]
          rw [managerAPI_DeleteJobs, managerAPI_waitJobs]
          exact CreateBackup.issue_not_ready managerAPI u _ c _ _ cl pods _ _
            (by rw [managerAPI_GetPods]; exact congrArg (fun r => (r, _)) hpods) hfind)]
      exact ⟨rfl, rfl⟩
  refine ⟨hrun.1, hrun.2, ?_⟩
  intro t ht
  rw [hrun.2] at ht
  have := (List.mem_filter.mp ht).2
  simpa using this

/-- Witness of C10 as amended: `db1` is backup-enabled, its primary pod is not
ready and a descriptor `db1-backrest-backup` is live; the request fails with
"primary pod is not in Ready state" and the manager is left without task
descriptors. -/
theorem CreateBackup_no_ready_primary_leaves_no_task_witness :
    (CreateBackup managerAPI demoConsts { Args := ["db1"], Selector := "", BackupOpts := "" }
        (demoManager "true" [demoPod false] [{ Name := "db1" }]
          [backupTask demoConsts "db1" "" "db1-0" "db1"])).1
      = { Results := [],
          Status := { Code := .Error, Msg := "primary pod is not in Ready state" } } ∧
    (CreateBackup managerAPI demoConsts { Args := ["db1"], Selector := "", BackupOpts := "" }
        (demoManager "true" [demoPod false] [{ Name := "db1" }]
          [backupTask demoConsts "db1" "" "db1-0" "db1"])).2.pgtasks = [] :=
  have h := CreateBackup_no_ready_primary_leaves_no_task demoConsts
    (demoManager "true" [demoPod false] [{ Name := "db1" }]
      [backupTask demoConsts "db1" "" "db1-0" "db1"])
    "db1" "" (demoCluster "true") { Items := [demoPod false] } rfl (by decide) rfl (by decide)
  ⟨h.1, h.2.1.trans rfl⟩

theorem CreateBackup.loop_single_eq {σ : Type} (k : KubeAPI σ) (u : Consts)
    (request : msgs.CreateBackrestBackupRequest) (c : String)
    (resp : msgs.CreateBackrestBackupResponse) (s : σ) :
    CreateBackup.loop k u request [c] resp s
      = ((CreateBackup.body k u request c resp s).1.2, (CreateBackup.body k u request c resp s).2) := by
  rcases hbody : CreateBackup.body k u request c resp s with ⟨⟨flow, resp1⟩, s1⟩
  exact CreateBackup.loop_single k u request c flow resp resp1 s s1 hbody

theorem managerAPI_CreateBackup_reclaim (u : Consts) (w w3 : ManagerState) (c o : String)
    (cl : crv1.Pgcluster) (dj : List error) (gj : List (v1batch.JobList × error))
    (hcluster : w.clusters c = some cl)
    (henabled : cl.Spec.UserLabels u.LABEL_BACKREST = "true")
    (hprior : w.pgtasks.any (fun t => t.Name == c ++ "-backrest-backup") = true)
    (hw3 : w3 = { w with pgtasks := w.pgtasks.filter (fun t => t.Name != c ++ "-backrest-backup") }) :
    CreateBackup managerAPI u { Args := [c], Selector := "", BackupOpts := o }
        { w with deleteJobsOutcomes := dj, getJobsOutcomes := gj }
      = ((CreateBackup.issue managerAPI u { Args := [c], Selector := "", BackupOpts := o } c
            (c ++ "-backrest-backup") cl { Results := [], Status := { Code := .Ok, Msg := "" } }
            w3).1.2,
          { (CreateBackup.issue managerAPI u { Args := [c], Selector := "", BackupOpts := o } c
              (c ++ "-backrest-backup") cl { Results := [], Status := { Code := .Ok, Msg := "" } }
              w3).2 with
            deleteJobsOutcomes := dj.drop 1, getJobsOutcomes := gj.drop 3 }) := by
  subst hw3
  rw [CreateBackup.of_args _ _ _ _ rfl, CreateBackup.loop_single_eq,
    CreateBackup.body_reclaim managerAPI u _ c _ cl
      { w with deleteJobsOutcomes := dj, getJobsOutcomes := gj }
      { w with deleteJobsOutcomes := dj, getJobsOutcomes := gj }
      { w with deleteJobsOutcomes := dj, getJobsOutcomes := gj }
      { w with pgtasks := w.pgtasks.filter (fun t => t.Name != c ++ "-backrest-backup"),
               deleteJobsOutcomes := dj, getJobsOutcomes := gj }
      (managerAPI_Getpgcluster _ c cl hcluster) henabled
      (managerAPI_Getpgtask_found _ _ hprior) (managerAPI_Deletepgtask_found _ _ hprior),
    managerAPI_DeleteJobs, managerAPI_waitJobs]
  exact congrArg (fun r => (r.1.2, r.2))
    (managerAPI_issue_jobs u _ c _ cl _
      { w with pgtasks := w.pgtasks.filter (fun t => t.Name != c ++ "-backrest-backup") }
      (dj.drop 1) (gj.drop 3))

/-! ## Reclaiming the jobs of a prior backup -/

/-- C9: on the modelled manager, when a descriptor `c-backrest-backup` is
live for the backup-enabled cluster `c` (its deletion then succeeds),
`CreateBackup` consumes one outcome of job deletion and three outcomes of
job listing, and whatever these outcomes `dj` and `gj` are (an error or
none, jobs listed or none), the response and the task descriptors the
manager holds afterwards are those of the run in which the job deletion
succeeds and every listing succeeds with no job left. -/
theorem CreateBackup_job_steps_not_fatal (u : Consts) (w : ManagerState) (c o : String)
    (cl : crv1.Pgcluster) (dj : List error) (gj : List (v1batch.JobList × error))
    (hcluster : w.clusters c = some cl)
    (henabled : cl.Spec.UserLabels u.LABEL_BACKREST = "true")
    (hprior : ∃ t ∈ w.pgtasks, t.Name = c ++ "-backrest-backup") :
    (CreateBackup managerAPI u { Args := [c], Selector := "", BackupOpts := o }
        { w with deleteJobsOutcomes := dj, getJobsOutcomes := gj }).1
      = (CreateBackup managerAPI u { Args := [c], Selector := "", BackupOpts := o }
          { w with deleteJobsOutcomes := [none],
                   getJobsOutcomes := [({ Items := [] }, none), ({ Items := [] }, none),
                     ({ Items := [] }, none)] }).1 ∧
    (CreateBackup managerAPI u { Args := [c], Selector := "", BackupOpts := o }
        { w with deleteJobsOutcomes := dj, getJobsOutcomes := gj }).2.pgtasks
      = (CreateBackup managerAPI u { Args := [c], Selector := "", BackupOpts := o }
          { w with deleteJobsOutcomes := [none],
                   getJobsOutcomes := [({ Items := [] }, none), ({ Items := [] }, none),
                     ({ Items := [] }, none)] }).2.pgtasks ∧
    (CreateBackup managerAPI u { Args := [c], Selector := "", BackupOpts := o }
        { w with deleteJobsOutcomes := dj, getJobsOutcomes := gj }).2.deleteJobsOutcomes
      = dj.drop 1 ∧
    (CreateBackup managerAPI u { Args := [c], Selector := "", BackupOpts := o }
        { w with deleteJobsOutcomes := dj, getJobsOutcomes := gj }).2.getJobsOutcomes
      = gj.drop 3 := by
  have hany : w.pgtasks.any (fun t => t.Name == c ++ "-backrest-backup") = true := by
    obtain ⟨t, ht, hname⟩ := hprior
    exact List.any_eq_true.mpr ⟨t, ht, by simp [hname]⟩
  rw [managerAPI_CreateBackup_reclaim u w _ c o cl dj gj hcluster henabled hany rfl,
    managerAPI_CreateBackup_reclaim u w _ c o cl _ _ hcluster henabled hany rfl]
  exact ⟨rfl, rfl, rfl, rfl⟩

/-- Witness of C9: `db1` has a live descriptor, a ready primary pod and one
deployment; the job deletion fails, the first and third listing still show a
job and the second listing fails, and the response is the one of the run
whose job steps all succeed with no job left. -/
theorem CreateBackup_job_steps_not_fatal_witness :
    (CreateBackup managerAPI demoConsts { Args := ["db1"], Selector := "", BackupOpts := "" }
        { demoManager "true" [demoPod true] [{ Name := "db1" }]
            [backupTask demoConsts "db1" "" "db1-0" "db1"] with
          deleteJobsOutcomes := [some "jobs.batch is forbidden"],
          getJobsOutcomes := [({ Items := [{ Name := "backrest-backup-db1" }] }, none),
            ({ Items := [] }, some "context deadline exceeded"),
            ({ Items := [{ Name := "backrest-backup-db1" }] }, none)] }).1
      = (CreateBackup managerAPI demoConsts { Args := ["db1"], Selector := "", BackupOpts := "" }
          { demoManager "true" [demoPod true] [{ Name := "db1" }]
              [backupTask demoConsts "db1" "" "db1-0" "db1"] with
            deleteJobsOutcomes := [none],
            getJobsOutcomes := [({ Items := [] }, none), ({ Items := [] }, none),
              ({ Items := [] }, none)] }).1 ∧
    (CreateBackup managerAPI demoConsts { Args := ["db1"], Selector := "", BackupOpts := "" }
        { demoManager "true" [demoPod true] [{ Name := "db1" }]
            [backupTask demoConsts "db1" "" "db1-0" "db1"] with
          deleteJobsOutcomes := [some "jobs.batch is forbidden"],
          getJobsOutcomes := [({ Items := [{ Name := "backrest-backup-db1" }] }, none),
            ({ Items := [] }, some "context deadline exceeded"),
            ({ Items := [{ Name := "backrest-backup-db1" }] }, none)] }).1
      = { Results := ["created Pgtask db1-backrest-backup"],
          Status := { Code := .Ok, Msg := "" } } :=
  ⟨(CreateBackup_job_steps_not_fatal demoConsts
      (demoManager "true" [demoPod true] [{ Name := "db1" }]
        [backupTask demoConsts "db1" "" "db1-0" "db1"])
      "db1" "" (demoCluster "true") [some "jobs.batch is forbidden"]
      [({ Items := [{ Name := "backrest-backup-db1" }] }, none),
        ({ Items := [] }, some "context deadline exceeded"),
        ({ Items := [{ Name := "backrest-backup-db1" }] }, none)]
      rfl (by decide) ⟨backupTask demoConsts "db1" "" "db1-0" "db1", List.mem_singleton_self _, rfl⟩).1,
    by decide⟩

theorem managerAPI_CreateBackup_reclaim_traced (u : Consts) (w : ManagerState) (c o : String)
    (cl : crv1.Pgcluster) (pods : v1.PodList) (p : v1.Pod) (d : v1beta1.Deployment)
    (t : List Call)
    (hcluster : w.clusters c = some cl)
    (henabled : cl.Spec.UserLabels u.LABEL_BACKREST = "true")
    (hpods : w.pods (topologySelector u cl.Spec.Name) = (pods, none))
    (hp : pods.Items.find? (specReadyPrimary u) = some p)
    (hdeps : w.deployments (topologySelector u cl.Spec.Name) = ({ Items := [d] }, none))
    (hprior : w.pgtasks.any (fun t => t.Name == c ++ "-backrest-backup") = true) :
    ∃ mid : List Call, (∀ x ∈ mid, x = Call.GetJobs (jobSelector u c) ∨ x = Call.Sleep 2) ∧
      CreateBackup (traced managerAPI) u { Args := [c], Selector := "", BackupOpts := o } (w, t)
        = ({ Results := ["created Pgtask " ++ (c ++ "-backrest-backup")],
             Status := { Code := .Ok, Msg := "" } },
            ({ w with
                pgtasks := w.pgtasks.filter (fun t => t.Name != c ++ "-backrest-backup")
                  ++ [backupTask u c o p.Name d.Name],
                deleteJobsOutcomes := w.deleteJobsOutcomes.drop 1,
                getJobsOutcomes := w.getJobsOutcomes.drop 3 },
              t ++ [Call.Getpgcluster c, Call.Getpgtask (c ++ "-backrest-backup"),
                  Call.Deletepgtask (c ++ "-backrest-backup"), Call.DeleteJobs (jobSelector u c)]
                ++ mid
                ++ [Call.GetPods (topologySelector u cl.Spec.Name),
                  Call.GetDeployments (topologySelector u cl.Spec.Name),
                  Call.Createpgtask (backupTask u c o p.Name d.Name)])) := by
  obtain ⟨mid, hmid, hwait⟩ := CreateBackup.waitJobs_traced managerAPI (jobSelector u c) 3
    (managerAPI.DeleteJobs (jobSelector u c)
      { w with pgtasks := w.pgtasks.filter (fun t => t.Name != c ++ "-backrest-backup") }).2
    (t ++ [Call.Getpgcluster c, Call.Getpgtask (c ++ "-backrest-backup"),
      Call.Deletepgtask (c ++ "-backrest-backup"), Call.DeleteJobs (jobSelector u c)])
  refine ⟨mid, hmid, ?_⟩
  rw [CreateBackup.of_args _ _ _ _ rfl]
  apply CreateBackup.loop_single (traced managerAPI) u _ c .next
  rw [CreateBackup.body_reclaim (traced managerAPI) u _ c _ cl (w, t)
    (w, t ++ [Call.Getpgcluster c])
    (w, t ++ [Call.Getpgcluster c, Call.Getpgtask (c ++ "-backrest-backup")])
    ({ w with pgtasks := w.pgtasks.filter (fun t => t.Name != c ++ "-backrest-backup") },
      t ++ [Call.Getpgcluster c, Call.Getpgtask (c ++ "-backrest-backup"),
        Call.Deletepgtask (c ++ "-backrest-backup")])
    (by simp [traced, managerAPI_Getpgcluster w c cl hcluster]) henabled
    (by simp [traced, managerAPI_Getpgtask_found w _ hprior])
    (by simp [traced, managerAPI_Deletepgtask_found w _ hprior])]
  have hdj : ((traced managerAPI).DeleteJobs (jobSelector u c)
      ({ w with pgtasks := w.pgtasks.filter (fun t => t.Name != c ++ "-backrest-backup") },
        t ++ [Call.Getpgcluster c, Call.Getpgtask (c ++ "-backrest-backup"),
          Call.Deletepgtask (c ++ "-backrest-backup")])).2
      = ((managerAPI.DeleteJobs (jobSelector u c)
          { w with pgtasks := w.pgtasks.filter (fun t => t.Name != c ++ "-backrest-backup") }).2,
        t ++ [Call.Getpgcluster c, Call.Getpgtask (c ++ "-backrest-backup"),
          Call.Deletepgtask (c ++ "-backrest-backup"), Call.DeleteJobs (jobSelector u c)]) := by
    simp [traced]
  rw [hdj, hwait, managerAPI_DeleteJobs, managerAPI_waitJobs]
  rw [CreateBackup.issue_created_traced managerAPI u
    { Args := [c], Selector := "", BackupOpts := o } c (c ++ "-backrest-backup") _ cl pods p d
    { w with pgtasks := w.pgtasks.filter (fun t => t.Name != c ++ "-backrest-backup"),
             deleteJobsOutcomes := w.deleteJobsOutcomes.drop 1,
             getJobsOutcomes := w.getJobsOutcomes.drop 3 }
    { w with pgtasks := w.pgtasks.filter (fun t => t.Name != c ++ "-backrest-backup"),
             deleteJobsOutcomes := w.deleteJobsOutcomes.drop 1,
             getJobsOutcomes := w.getJobsOutcomes.drop 3 }
    { w with pgtasks := w.pgtasks.filter (fun t => t.Name != c ++ "-backrest-backup"),
             deleteJobsOutcomes := w.deleteJobsOutcomes.drop 1,
             getJobsOutcomes := w.getJobsOutcomes.drop 3 }
    { w with pgtasks := w.pgtasks.filter (fun t => t.Name != c ++ "-backrest-backup")
               ++ [backupTask u c o p.Name d.Name],
             deleteJobsOutcomes := w.deleteJobsOutcomes.drop 1,
             getJobsOutcomes := w.getJobsOutcomes.drop 3 }
    _ (by rw [managerAPI_GetPods]; exact congrArg (fun r => (r, _)) hpods) hp
    (by rw [managerAPI_GetDeployments]; exact congrArg (fun r => (r, _)) hdeps) rfl]
  simp [backupTask]

theorem pgtasks_one_live (l : List crv1.Pgtask) (task : crv1.Pgtask) (name : String)
    (h : task.Name = name) :
    (((l.filter (fun t => t.Name != name) ++ [task]).filter (fun t => t.Name != name)
      ++ [task]).filter (fun t => t.Name == name)) = [task] := by
  have hnone : (l.filter (fun t => t.Name != name)).filter (fun t => t.Name == name) = [] := by
    rw [List.filter_filter, List.filter_eq_nil_iff]
    intro t _
    cases hn : (t.Name == name) <;> simp [bne, hn]
  simp [List.filter_append, h, List.filter_filter, hnone]

theorem managerAPI_CreateBackup_first_run (u : Consts) (w : ManagerState) (c o : String)
    (cl : crv1.Pgcluster) (pods : v1.PodList) (p : v1.Pod) (d : v1beta1.Deployment)
    (hcluster : w.clusters c = some cl)
    (henabled : cl.Spec.UserLabels u.LABEL_BACKREST = "true")
    (hpods : w.pods (topologySelector u cl.Spec.Name) = (pods, none))
    (hp : pods.Items.find? (specReadyPrimary u) = some p)
    (hdeps : w.deployments (topologySelector u cl.Spec.Name) = ({ Items := [d] }, none)) :
    ∃ (tr : List Call) (dj : List error) (gj : List (v1batch.JobList × error)),
      CreateBackup (traced managerAPI) u { Args := [c], Selector := "", BackupOpts := o } (w, [])
        = ({ Results := ["created Pgtask " ++ (c ++ "-backrest-backup")],
             Status := { Code := .Ok, Msg := "" } },
            ({ w with
                pgtasks := w.pgtasks.filter (fun t => t.Name != c ++ "-backrest-backup")
                  ++ [backupTask u c o p.Name d.Name],
                deleteJobsOutcomes := dj, getJobsOutcomes := gj }, tr)) := by
  cases hany : w.pgtasks.any (fun t => t.Name == c ++ "-backrest-backup") with
  | false =>
    have hfilter : w.pgtasks.filter (fun t => t.Name != c ++ "-backrest-backup") = w.pgtasks := by
      rw [List.filter_eq_self]
      intro t ht
      have := (List.any_eq_false.mp hany) t ht
      simpa using this
    have h := CreateBackup.fresh_traced managerAPI u c o cl _ pods p d w w w w w _ []
      (managerAPI_Getpgcluster w c cl hcluster) henabled (managerAPI_Getpgtask_absent w _ hany)
      (by rw [managerAPI_GetPods, hpods]) hp (by rw [managerAPI_GetDeployments, hdeps])
      (managerAPI_Createpgtask w _)
    rw [← hfilter] at h
    exact ⟨_, w.deleteJobsOutcomes, w.getJobsOutcomes, h⟩
  | true =>
    obtain ⟨mid, _, hrun⟩ := managerAPI_CreateBackup_reclaim_traced u w c o cl pods p d []
      hcluster henabled hpods hp hdeps hany
    exact ⟨_, _, _, hrun⟩

/-! ## Issuing a backup twice -/

/-- C5: on the modelled manager, for a backup-enabled cluster `c` whose pod
listing has the first ready primary pod `p` and whose deployment listing has
the one entry `d`, two runs of `CreateBackup` for `c` in succession both
answer `Ok`; after the second run the descriptors named `c-backrest-backup`
that the manager holds are exactly one, the new descriptor; and the calls of
the second run are, in this order, the cluster lookup, the task lookup, the
deletion of the first descriptor, the job deletion, job listings and sleeps,
the pod listing, the deployment listing and the creation of the second
descriptor: the deletion comes before the creation. -/
theorem CreateBackup_twice_leaves_one_task (u : Consts) (w : ManagerState) (c o : String)
    (cl : crv1.Pgcluster) (pods : v1.PodList) (p : v1.Pod) (d : v1beta1.Deployment)
    (hcluster : w.clusters c = some cl)
    (henabled : cl.Spec.UserLabels u.LABEL_BACKREST = "true")
    (hpods : w.pods (topologySelector u cl.Spec.Name) = (pods, none))
    (hp : pods.Items.find? (specReadyPrimary u) = some p)
    (hdeps : w.deployments (topologySelector u cl.Spec.Name) = ({ Items := [d] }, none)) :
    ∃ mid : List Call, (∀ x ∈ mid, x = Call.GetJobs (jobSelector u c) ∨ x = Call.Sleep 2) ∧
      (CreateBackup (traced managerAPI) u { Args := [c], Selector := "", BackupOpts := o }
          (w, [])).1
        = { Results := ["created Pgtask " ++ (c ++ "-backrest-backup")],
            Status := { Code := .Ok, Msg := "" } } ∧
      (CreateBackup (traced managerAPI) u { Args := [c], Selector := "", BackupOpts := o }
          ((CreateBackup (traced managerAPI) u { Args := [c], Selector := "", BackupOpts := o }
            (w, [])).2.1, [])).1
        = { Results := ["created Pgtask " ++ (c ++ "-backrest-backup")],
            Status := { Code := .Ok, Msg := "" } } ∧
      (CreateBackup (traced managerAPI) u { Args := [c], Selector := "", BackupOpts := o }
          ((CreateBackup (traced managerAPI) u { Args := [c], Selector := "", BackupOpts := o }
            (w, [])).2.1, [])).2.1.pgtasks.filter (fun t => t.Name == c ++ "-backrest-backup")
        = [backupTask u c o p.Name d.Name] ∧
      (CreateBackup (traced managerAPI) u { Args := [c], Selector := "", BackupOpts := o }
          ((CreateBackup (traced managerAPI) u { Args := [c], Selector := "", BackupOpts := o }
            (w, [])).2.1, [])).2.2
        = [Call.Getpgcluster c, Call.Getpgtask (c ++ "-backrest-backup"),
            Call.Deletepgtask (c ++ "-backrest-backup"), Call.DeleteJobs (jobSelector u c)]
          ++ mid
          ++ [Call.GetPods (topologySelector u cl.Spec.Name),
            Call.GetDeployments (topologySelector u cl.Spec.Name),
            Call.Createpgtask (backupTask u c o p.Name d.Name)] := by
  obtain ⟨tr, dj, gj, hfirst⟩ := managerAPI_CreateBackup_first_run u w c o cl pods p d hcluster
    henabled hpods hp hdeps
  have hname : (backupTask u c o p.Name d.Name).Name = c ++ "-backrest-backup" := rfl
  obtain ⟨mid, hmid, hsecond⟩ := managerAPI_CreateBackup_reclaim_traced u
    { w with
      pgtasks := w.pgtasks.filter (fun t => t.Name != c ++ "-backrest-backup")
        ++ [backupTask u c o p.Name d.Name],
      deleteJobsOutcomes := dj, getJobsOutcomes := gj }
    c o cl pods p d [] hcluster henabled hpods hp hdeps
    (by simp [hname])
  refine ⟨mid, hmid, ?_, ?_, ?_, ?_⟩
  · rw [hfirst]
  · rw [hfirst, hsecond]
  · rw [hfirst, hsecond]
    exact pgtasks_one_live w.pgtasks _ _ hname
  · rw [hfirst, hsecond]
    simp

/-- Witness of C5, on the scene of the spec: two runs for `db1` leave the one
descriptor `db1-backrest-backup`. -/
theorem CreateBackup_twice_leaves_one_task_witness :
    (CreateBackup (traced managerAPI) demoConsts
        { Args := ["db1"], Selector := "", BackupOpts := "--type=full" }
        ((CreateBackup (traced managerAPI) demoConsts
          { Args := ["db1"], Selector := "", BackupOpts := "--type=full" }
          (demoManager "true" [demoPod true] [{ Name := "db1" }] [], [])).2.1, [])).2.1.pgtasks.filter
        (fun t => t.Name == "db1-backrest-backup")
      = [backupTask demoConsts "db1" "--type=full" "db1-0" "db1"] :=
  (CreateBackup_twice_leaves_one_task demoConsts
    (demoManager "true" [demoPod true] [{ Name := "db1" }] []) "db1" "--type=full"
    (demoCluster "true") { Items := [demoPod true] } (demoPod true) { Name := "db1" }
    rfl (by decide) rfl rfl rfl).elim (fun _ h => h.2.2.2.1)

theorem managerAPI_getPrimaryPodName (u : Consts) (w : ManagerState) (c : crv1.Pgcluster) :
    getPrimaryPodName managerAPI u c w =
      (match specPrimaryPod u w c with
        | .ok podname => (podname, none)
        | .error e => ("", some e), w) := by
  have hsel : u.LABEL_PGPOOL ++ "!=true," ++ u.LABEL_PG_CLUSTER ++ "=" ++ c.Spec.Name
      ++ "," ++ u.LABEL_PRIMARY ++ "=true" = topologySelector u c.Spec.Name := rfl
  simp only [getPrimaryPodName, hsel, managerAPI_GetPods, specPrimaryPod,
    getPrimaryPodName.loop_eq_find]
  rcases w.pods (topologySelector u c.Spec.Name) with ⟨pods, _ | e⟩
  · rcases hf : pods.Items.find? (specReadyPrimary u) with _ | p <;> simp [hf]
  · simp

theorem managerAPI_ShowBackrest_loop (u : Consts) (w : ManagerState)
    (clusters : List crv1.Pgcluster) (response : msgs.ShowBackrestResponse) :
    ShowBackrest.loop managerAPI u clusters response w =
      ({ Items := response.Items ++ (specShowItems u w clusters).1,
         Status := match (specShowItems u w clusters).2 with
           | some e => { Code := .Error, Msg := e }
           | none => response.Status }, w) := by
  induction clusters generalizing response with
  | nil => simp [ShowBackrest.loop, specShowItems]
  | cons c rest ih =>
    simp only [ShowBackrest.loop, specShowItems, managerAPI_getPrimaryPodName]
    rcases specPrimaryPod u w c with e | podname
    · simp
    · simp only [getInfo, managerAPI_ExecToPodThroughAPI, backrestCommand, backrestInfoCommand,
        containername, specShowItem]
      rcases w.exec ["pgbackrest", "info"] "database" podname with ⟨output, stderr, _ | e⟩
      · simp [ih]
      · simp [ih]

theorem specShowItems_all_resolve (u : Consts) (w : ManagerState) (clusters : List crv1.Pgcluster)
    (podOf : crv1.Pgcluster → String)
    (h : ∀ c ∈ clusters, specPrimaryPod u w c = .ok (podOf c)) :
    specShowItems u w clusters = (clusters.map (fun c => specShowItem w c (podOf c)), none) := by
  induction clusters with
  | nil => rfl
  | cons c rest ih =>
    have hrest := ih (fun x hx => h x (List.mem_cons_of_mem c hx))
    simp [specShowItems, h c (List.mem_cons_self c rest), hrest]

theorem specShowItems_cut (u : Consts) (w : ManagerState) (pre post : List crv1.Pgcluster)
    (c : crv1.Pgcluster) (e : String) (podOf : crv1.Pgcluster → String)
    (h : ∀ x ∈ pre, specPrimaryPod u w x = .ok (podOf x))
    (hc : specPrimaryPod u w c = .error e) :
    specShowItems u w (pre ++ c :: post)
      = (pre.map (fun x => specShowItem w x (podOf x)), some e) := by
  induction pre with
  | nil => simp [specShowItems, hc]
  | cons x rest ih =>
    have hrest := ih (fun y hy => h y (List.mem_cons_of_mem x hy))
    simp [specShowItems, h x (List.mem_cons_self x rest), hrest]

theorem ShowBackrest.of_listing {σ : Type} (k : KubeAPI σ) (u : Consts) (name selector : String)
    (clusters : List crv1.Pgcluster) (s s1 : σ)
    (hquery : k.GetpgclustersBySelector (specShowSelector name selector) s
      = (({ Items := clusters }, none), s1)) :
    ShowBackrest k u name selector s =
      ShowBackrest.loop k u clusters { Items := [], Status := { Code := .Ok, Msg := "" } } s1 := by
  have hsel : (if (selector = "" && name = "all") = true then selector
      else if selector = "" then "name=" ++ name else selector) = specShowSelector name selector := by
    unfold specShowSelector
    by_cases h1 : selector = "" <;> by_cases h2 : name = "all" <;> simp [h1, h2]
  simp only [ShowBackrest, hsel, hquery]

/-! ## Status queries -/

/-- C8 as stated fails: the manager lists the clusters `db1` and `db2`
without error, the primary pod of `db1` is not ready, and `ShowBackrest`
answers status `Error`, "primary pod is not in Ready state", with no item at
all, neither for `db1` nor for `db2`: the failure to resolve a primary pod is
not embedded as a status text and it aborts the batch. -/
theorem ShowBackrest_pod_failure_aborts_counterexample :
    (demoManagerTwo.clusterQuery "").2 = none ∧
    (demoManagerTwo.clusterQuery "").1.Items.map (fun c => c.Name) = ["db1", "db2"] ∧
    (ShowBackrest managerAPI demoConsts "all" "" demoManagerTwo).1
      = { Items := [],
          Status := { Code := .Error, Msg := "primary pod is not in Ready state" } } ∧
    (ShowBackrest managerAPI demoConsts "all" "" demoManagerTwo).1.Items.map (fun d => d.Name)
      ≠ (demoManagerTwo.clusterQuery "").1.Items.map (fun c => c.Name) := by
  refine ⟨rfl, rfl, by decide, by decide⟩

/-- C8 as amended: on the modelled manager, when the cluster listing of a
`ShowBackrest` request succeeds and the primary pod of every listed cluster
resolves, the response has status `Ok` and one item for every listed
cluster, in listing order, whose status text is the output of the info
command or, when the command fails, the text of its error: a failure of the
command does not abort the batch.  When the primary pod of a listed cluster
does not resolve, the request ends there with status `Error` and the message
of that failure, the response keeping the items of the clusters listed
before it. -/
theorem ShowBackrest_info_failure_embedded (u : Consts) (w : ManagerState)
    (name selector : String) (clusters : List crv1.Pgcluster)
    (podOf : crv1.Pgcluster → String)
    (hquery : w.clusterQuery (specShowSelector name selector) = ({ Items := clusters }, none)) :
    ((∀ c ∈ clusters, specPrimaryPod u w c = .ok (podOf c)) →
      ShowBackrest managerAPI u name selector w =
        ({ Items := clusters.map (fun c => specShowItem w c (podOf c)),
           Status := { Code := .Ok, Msg := "" } }, w)) ∧
    (∀ pre c post e, clusters = pre ++ c :: post →
      (∀ x ∈ pre, specPrimaryPod u w x = .ok (podOf x)) → specPrimaryPod u w c = .error e →
      ShowBackrest managerAPI u name selector w =
        ({ Items := pre.map (fun x => specShowItem w x (podOf x)),
           Status := { Code := .Error, Msg := e } }, w)) := by
  have hrun : ShowBackrest managerAPI u name selector w =
      ({ Items := (specShowItems u w clusters).1,
         Status := match (specShowItems u w clusters).2 with
           | some e => { Code := .Error, Msg := e }
           | none => { Code := .Ok, Msg := "" } }, w) := by
    rw [ShowBackrest.of_listing managerAPI u name selector clusters w w
      (congrArg (fun r => (r, w)) hquery), managerAPI_ShowBackrest_loop]
    simp only [List.nil_append]
  constructor
  · intro hall
    rw [hrun, specShowItems_all_resolve u w clusters podOf hall]
  · intro pre c post e hsplit hpre hc
    rw [hrun, hsplit, specShowItems_cut u w pre post c e podOf hpre hc]

/-- Witness of C8 as amended: `db1` has the ready primary pod `db1-0` in which
the info command fails; the response is `Ok` with the one item for `db1`
whose status text is the error of the command. -/
theorem ShowBackrest_info_failure_embedded_witness :
    ShowBackrest managerAPI demoConsts "db1" ""
        { demoManager "true" [demoPod true] [] [] with
          exec := fun _ _ _ => ("", "", some "command terminated with exit code 1") }
      = ({ Items := [{ Name := "db1", Info := "command terminated with exit code 1" }],
           Status := { Code := .Ok, Msg := "" } },
          { demoManager "true" [demoPod true] [] [] with
            exec := fun _ _ _ => ("", "", some "command terminated with exit code 1") }) :=
  (ShowBackrest_info_failure_embedded demoConsts
    { demoManager "true" [demoPod true] [] [] with
      exec := fun _ _ _ => ("", "", some "command terminated with exit code 1") }
    "db1" "" [demoCluster "true"] (fun _ => "db1-0") rfl).1
    (by intro c hc; rw [List.mem_singleton.mp hc]; rfl)
